import Mathlib

/-!
Verification of the autodata MIR dataset validation/organization pipelines.

This file is a shallow embedding of the Python sources
`config.py`, `utils.py`, `validation_pipeline.py`, `organization_pipeline.py`
and `main.py`.  External effects (ffprobe/ffmpeg invocations, the filesystem,
hashing of file bytes) are modelled as per-file environment records whose
fields hold the outcomes the external world would report; all pipeline logic
over those outcomes is translated directly from the source.  Machine floats
are modelled as rationals, Python `Optional` as `Option`, and Python
attribute access that can raise `AttributeError` as `Except String`.
-/

set_option maxHeartbeats 1000000
set_option linter.unusedVariables false

/-- Python rendering of an `Optional[str]` inside an f-string: `None` prints as "None". -/
def pyStr : Option String → String
  | some s => s
  | none => "None"

/-- Model of `pathlib.Path(p).name`: the final component of a `/`-separated path
(everything after the last slash). -/
def pathName (p : String) : String :=
  String.mk ((p.data.reverse.takeWhile (fun c => !(c == '/'))).reverse)

/-- Model of Python `str.lower` (ASCII case folding suffices here). -/
def pyLower (s : String) : String :=
  String.mk (s.data.map Char.toLower)

/-- Model of Python `str.endswith`. -/
def pyEndsWith (s suffixStr : String) : Bool :=
  suffixStr.data.isSuffixOf s.data

/-! ## config.py -/

/-- Audio formats supported by the pipeline (`config.py` `AudioFormat`). -/
inductive AudioFormat where
  | wav | mp3 | flac | ogg | m4a
deriving DecidableEq

/-- The `value` of an `AudioFormat` enum member. -/
def AudioFormat.value : AudioFormat → String
  | .wav => "wav"
  | .mp3 => "mp3"
  | .flac => "flac"
  | .ogg => "ogg"
  | .m4a => "m4a"

/-- Technical audio target specification (`config.py` `AudioSpec`).
Durations are seconds, modelled as rationals. -/
structure AudioSpec where
  format : AudioFormat := .wav
  sample_rate : Nat := 44100
  channels : Nat := 2
  bit_depth : Nat := 16
  min_duration_sec : ℚ := 1
  max_duration_sec : Option ℚ := none
deriving DecidableEq

/-- Directory layout of the organized dataset (`config.py` `DirectoryStructure`).
These are exactly the four fields the dataclass declares; in particular it
declares NO field named `use_splits_subdirs`. -/
structure DirectoryStructure where
  audio_dir : String := "audio"
  metadata_dir : String := "metadata"
  annotations_dir : String := "annotations"
  splits : List String := ["train", "val", "test"]
deriving DecidableEq

/-- A Python object supplied as `config.structure`.  `fields` are the dataclass
fields of `config.py`'s `DirectoryStructure`; `use_splits_subdirs_attr` models
whether the object additionally carries an attribute `use_splits_subdirs`
(`none` = attribute absent, which is the case for every instance of
`config.py`'s `DirectoryStructure`, hence for `DEFAULT_CONFIG`). -/
structure StructureObject where
  fields : DirectoryStructure := {}
  use_splits_subdirs_attr : Option Bool := none
deriving DecidableEq

/-- Naming convention for organized files (`config.py` `NamingConvention`).
The Python field `prefix` is rendered here as `prefixStr`. -/
structure NamingConvention where
  prefixStr : String := "track"
  id_padding : Nat := 5
  separator : String := "_"
  lowercase : Bool := true
  replace_spaces_with : String := "_"
  remove_special_chars : Bool := true
deriving DecidableEq

/-- Validation rule toggles (`config.py` `ValidationRules`). -/
structure ValidationRules where
  check_audio_integrity : Bool := true
  check_duration_range : Bool := true
  check_sample_rate : Bool := true
  check_channels : Bool := true
  check_bit_depth : Bool := true
  check_metadata_completeness : Bool := true
  allow_duplicates : Bool := false
  duplicate_detection : String := "hash"
deriving DecidableEq

/-- Complete dataset configuration (`config.py` `DatasetConfig`).  The Python
field `structure` is rendered here as `dirStructure` (`structure` is a Lean
keyword). -/
structure DatasetConfig where
  name : String := "mir_dataset"
  version : String := "1.0.0"
  audio : AudioSpec := {}
  dirStructure : StructureObject := {}
  naming : NamingConvention := {}
  validation : ValidationRules := {}
deriving DecidableEq

/-- The module-level default configuration (`config.py` `DEFAULT_CONFIG`). -/
def DEFAULT_CONFIG : DatasetConfig := {}

/-! ## utils.py : probe results and the per-file environment -/

/-- Metadata extracted from one audio file by `get_audio_info` (`utils.py`
`AudioInfo`).  `bit_depth` is `None` when ffprobe reports no (or zero)
`bits_per_sample`, matching `int(...) or None` in the source. -/
structure AudioInfo where
  filepath : String
  duration_sec : ℚ
  sample_rate : Nat
  channels : Nat
  bit_depth : Option Nat
  format : String
  codec : String
  file_size_bytes : Nat
  is_valid : Bool
  error_message : Option String := none
deriving DecidableEq

/-- Environment for one audio file: the outcomes that the filesystem and the
external ffprobe/ffmpeg tools would report for it.  `info` is the result of
`get_audio_info(path)`; `integrity_ok`/`integrity_error` the result of
`verify_audio_integrity(path)`; `fileHash` the hex digest computed by
`compute_file_hash(path)` from the file's bytes (byte-identical files have
equal `fileHash`); `audioHash` the result of `compute_audio_hash(path)`;
`convertError`/`copyError` the failure outcome (if any) of `convert_audio`
or `shutil.copy2` on this file; `outputExists`/`outputSizeBytes` describe the
produced output file after processing. -/
structure FileEnv where
  path : String
  info : AudioInfo
  integrity_ok : Bool := true
  integrity_error : Option String := none
  fileHash : String := ""
  audioHash : Option String := none
  convertError : Option String := none
  copyError : Option String := none
  outputExists : Bool := true
  outputSizeBytes : Nat := 0
deriving DecidableEq

/-! ## validation_pipeline.py : per-file validation -/

/-- Result of validating a single audio file (`validation_pipeline.py`
`AudioValidationResult`). -/
structure AudioValidationResult where
  filepath : String
  filename : String
  is_valid : Bool
  audio_info : Option AudioInfo := none
  integrity_ok : Bool := true
  duration_ok : Bool := true
  sample_rate_ok : Bool := true
  channels_ok : Bool := true
  file_hash : Option String := none
  audio_hash : Option String := none
  issues : List String := []
deriving DecidableEq

/-- Translation of `ValidationPipeline.validate_audio_file`.  The issue
strings keep the Portuguese category text of the source; the numeric
interpolations of the source messages are display-only and omitted.  If the
probe failed the function returns immediately with only the probe issue and
every per-check flag still at its dataclass default `True` and both hashes
`None`; otherwise each enabled check runs, failing checks clear their flag
and append an issue, hashes are computed unless duplicates are allowed, and
overall validity is the conjunction of the four flags with emptiness of
`issues`. -/
def validate_audio_file (cfg : DatasetConfig) (f : FileEnv) (check_integrity : Bool) :
    AudioValidationResult :=
  let info := f.info
  if !info.is_valid then
    { filepath := f.path, filename := pathName f.path, is_valid := false,
      audio_info := some info,
      issues := ["Erro ao ler arquivo: " ++ pyStr info.error_message] }
  else
    let durMinFail := cfg.validation.check_duration_range
      && decide (info.duration_sec < cfg.audio.min_duration_sec)
    let durMaxFail := cfg.validation.check_duration_range
      && (match cfg.audio.max_duration_sec with
          | some m => !(m == 0) && decide (m < info.duration_sec)
          | none => false)
    let srFail := cfg.validation.check_sample_rate
      && !(info.sample_rate == cfg.audio.sample_rate)
    let chFail := cfg.validation.check_channels
      && !(info.channels == cfg.audio.channels)
    let intChecked := check_integrity && cfg.validation.check_audio_integrity
    let intFail := intChecked && !f.integrity_ok
    let fileHash := if !cfg.validation.allow_duplicates then some f.fileHash else none
    let audioHash :=
      if !cfg.validation.allow_duplicates && (cfg.validation.duplicate_detection == "hash")
      then f.audioHash else none
    let issues :=
      (if durMinFail then ["Duração muito curta"] else [])
      ++ (if durMaxFail then ["Duração muito longa"] else [])
      ++ (if srFail then ["Sample rate incorreto"] else [])
      ++ (if chFail then ["Número de canais incorreto"] else [])
      ++ (if intFail then ["Falha de integridade: " ++ pyStr f.integrity_error] else [])
    { filepath := f.path, filename := pathName f.path,
      is_valid := !intFail && (!(durMinFail || durMaxFail) && (!srFail && (!chFail
        && issues.isEmpty))),
      audio_info := some info,
      integrity_ok := !intFail,
      duration_ok := !(durMinFail || durMaxFail),
      sample_rate_ok := !srFail,
      channels_ok := !chFail,
      file_hash := fileHash, audio_hash := audioHash,
      issues := issues }

/-! ## validation_pipeline.py : dataset-level aggregation -/

/-- One `defaultdict(list)` update `hash_map[h].append(p)`: append `p` to the
bucket of key `h`, creating the bucket (at the end, in insertion order) if the
key is new. -/
def bumpBucket (m : List (String × List String)) (h p : String) :
    List (String × List String) :=
  match m with
  | [] => [(h, [p])]
  | (k, ps) :: rest =>
      if k = h then (k, ps ++ [p]) :: rest else (k, ps) :: bumpBucket rest h p

/-- Whether `validate_dataset` records `r` in the duplicate hash map:
`result.audio_info and result.audio_info.is_valid` and `result.file_hash`
must all be truthy (`audio_info` is always a — truthy — object here, so the
first test reduces to the probe validity flag; an empty hash string is falsy). -/
def hashEligible (r : AudioValidationResult) : Bool :=
  (match r.audio_info with
   | some info => info.is_valid
   | none => false)
  && (match r.file_hash with
      | some h => !(h == "")
      | none => false)

/-- One iteration of the result-collection loop of `validate_dataset`,
restricted to the duplicate hash map it maintains. -/
def hashMapStep (m : List (String × List String)) (r : AudioValidationResult) :
    List (String × List String) :=
  if hashEligible r then
    match r.file_hash with
    | some h => bumpBucket m h r.filepath
    | none => m
  else m

/-- The duplicate hash map accumulated over all per-file results. -/
def hashMapOf (results : List AudioValidationResult) : List (String × List String) :=
  results.foldl hashMapStep []

/-- Aggregate validation report (`validation_pipeline.py` `ValidationReport`).
`detected_structure` (a filesystem census), the metadata/annotation file
counts and the `issues_summary` category counters are environment census
data not referenced by any verified property and are omitted. -/
structure ValidationReport where
  dataset_path : String
  total_audio_files : Nat := 0
  valid_audio_files : Nat := 0
  invalid_audio_files : Nat := 0
  total_duration_sec : ℚ := 0
  avg_duration_sec : ℚ := 0
  min_duration_sec : ℚ := 0
  max_duration_sec : ℚ := 0
  total_size_bytes : Nat := 0
  format_distribution : List (String × Nat) := []
  sample_rate_distribution : List (String × Nat) := []
  channels_distribution : List (String × Nat) := []
  duplicates_found : List (String × List String) := []
  file_results : List AudioValidationResult := []
deriving DecidableEq

/-- Translation of `ValidationPipeline.validate_dataset`.  The input `files`
are the audio files `find_audio_files` enumerates under `root` (sorted,
distinct paths), each paired with its external-world outcomes.  Workers
complete in nondeterministic order in the source; every aggregate below is
order-independent, and `file_results` is modelled in submission order. -/
def validate_dataset (cfg : DatasetConfig) (root : String) (files : List FileEnv)
    (check_integrity : Bool) : ValidationReport :=
  if files.length = 0 then { dataset_path := root }
  else
    let results := files.map (fun f => validate_audio_file cfg f check_integrity)
    let validCount := (results.filter (fun r => r.is_valid)).length
    let invalidCount := (results.filter (fun r => !r.is_valid)).length
    let hm := hashMapOf results
    let dups := hm.filter (fun e => decide (1 < e.2.length))
    let okInfos := results.filterMap (fun r =>
      match r.audio_info with
      | some info => if info.is_valid then some info else none
      | none => none)
    let durations := okInfos.map (fun i => i.duration_sec)
    let sizes := okInfos.map (fun i => i.file_size_bytes)
    { dataset_path := root,
      total_audio_files := files.length,
      valid_audio_files := validCount,
      invalid_audio_files := invalidCount,
      total_duration_sec := durations.sum,
      avg_duration_sec := if durations.length = 0 then 0 else durations.sum / durations.length,
      min_duration_sec := durations.foldr min (durations.headD 0),
      max_duration_sec := durations.foldr max (durations.headD 0),
      total_size_bytes := sizes.sum,
      format_distribution := (okInfos.map (fun i => i.format)).dedup.map
        (fun s => (s, ((okInfos.map (fun i => i.format)).count s))),
      sample_rate_distribution := (okInfos.map (fun i => toString i.sample_rate)).dedup.map
        (fun s => (s, ((okInfos.map (fun i => toString i.sample_rate)).count s))),
      channels_distribution := (okInfos.map (fun i => toString i.channels)).dedup.map
        (fun s => (s, ((okInfos.map (fun i => toString i.channels)).count s))),
      duplicates_found := dups,
      file_results := results }

/-! ## utils.py : track id generation -/

/-- Model of Python `str.zfill` on an unsigned decimal string: left-pad with
zeros to at least `width` characters. -/
def zfill (s : String) (width : Nat) : String :=
  String.mk (List.replicate (width - s.length) '0' ++ s.data)

/-- Translation of `utils.generate_track_id`:
`f"{prefix}_{str(index).zfill(padding)}"`. -/
def generate_track_id (index padding : Nat) (prefixStr : String) : String :=
  prefixStr ++ "_" ++ zfill (toString index) padding

/-! ## organization_pipeline.py -/

/-- Translation of `OrganizationPipeline.needs_conversion`. -/
def needs_conversion (cfg : DatasetConfig) (audio_info : AudioInfo) : Bool :=
  let target_ext := "." ++ cfg.audio.format.value
  if !(pyEndsWith (pyLower audio_info.filepath) target_ext) then true
  else if !(audio_info.sample_rate == cfg.audio.sample_rate) then true
  else if !(audio_info.channels == cfg.audio.channels) then true
  else if (match audio_info.bit_depth with
           | some b => !(b == 0) && !(b == cfg.audio.bit_depth)
           | none => false) then true
  else false

/-- Mapping of one track from the original to the organized dataset
(`organization_pipeline.py` `TrackMapping`). -/
structure TrackMapping where
  original_path : String
  original_filename : String
  new_track_id : String
  new_filename : String
  new_path : String
  audio_info : Option AudioInfo := none
  needs_conversion : Bool := false
  conversion_done : Bool := false
  error : Option String := none
deriving DecidableEq

/-- One iteration of the mapping-creation loop of `organize_dataset`
(step 5, lines 349-369): position `i` is 0-based as in `enumerate`. -/
def plan_track (cfg : DatasetConfig) (i : Nat) (f : FileEnv) : TrackMapping :=
  let track_id := generate_track_id (i + 1) cfg.naming.id_padding cfg.naming.prefixStr
  let target_ext := "." ++ cfg.audio.format.value
  let new_filename := track_id ++ target_ext
  let audio_info := f.info
  let needs_conv := if audio_info.is_valid then needs_conversion cfg audio_info else true
  { original_path := f.path, original_filename := pathName f.path,
    new_track_id := track_id, new_filename := new_filename, new_path := "",
    audio_info := some audio_info, needs_conversion := needs_conv }

/-- The full mapping-creation loop over the (ordered) audio file list. -/
def plan_tracks (cfg : DatasetConfig) (files : List FileEnv) : List TrackMapping :=
  files.enum.map (fun p => plan_track cfg p.1 p.2)

/-- Python attribute access `structure.use_splits_subdirs`: succeeds only
when the object actually has the attribute, otherwise raises
`AttributeError` (config.py's `DirectoryStructure` declares no such field). -/
def readUseSplitsSubdirs (s : StructureObject) : Except String Bool :=
  match s.use_splits_subdirs_attr with
  | some b => .ok b
  | none =>
      .error "AttributeError: DirectoryStructure object has no attribute use_splits_subdirs"

/-- Translation of `OrganizationPipeline.create_directory_structure`.  The
returned association list models the `dirs` dict (keys in insertion order);
directory creation itself (`ensure_dir`) is an idempotent filesystem effect.
Reading `structure.use_splits_subdirs` happens after the base directories are
created and raises `AttributeError` when the attribute is absent. -/
def create_directory_structure (s : StructureObject) (output_path : String) :
    Except String (List (String × String)) := do
  let audio_base := output_path ++ "/" ++ s.fields.audio_dir
  let dirs := [("audio", audio_base),
               ("metadata", output_path ++ "/" ++ s.fields.metadata_dir),
               ("annotations", output_path ++ "/" ++ s.fields.annotations_dir)]
  let uss ← readUseSplitsSubdirs s
  if uss then
    let extra := s.fields.splits.map (fun sp =>
      [("audio_" ++ sp, audio_base ++ "/" ++ sp),
       ("annotations_" ++ sp, output_path ++ "/" ++ s.fields.annotations_dir ++ "/" ++ sp)])
    pure (dirs ++ extra.flatten)
  else pure dirs

/-- The split label the loop body of `assign_splits` writes for shuffled
position `i`. -/
def splitLabel (n_train n_val : Nat) (i : Nat) : String :=
  if i < n_train then "train" else if i < n_train + n_val then "val" else "test"

/-- The write loop of `assign_splits`: `for i, idx in enumerate(indices):
splits[idx] = label(i)`, starting at enumeration position `i`. -/
def writeLabels (n_train n_val : Nat) : Nat → List Nat → List String → List String
  | _, [], splits => splits
  | i, idx :: rest, splits =>
      writeLabels n_train n_val (i + 1) rest (splits.set idx (splitLabel n_train n_val i))

/-- Translation of `OrganizationPipeline.assign_splits`.  `random.seed(seed)`
followed by `random.shuffle(indices)` is modelled by an explicit `shuffle`
function from the seed and the index list (the source's Mersenne-Twister
shuffle always produces a permutation of its input, which is the only fact
the theorems use).  `test_ratio` is accepted and ignored exactly as in the
source; `int(...)` truncation on nonnegative floats is the natural floor. -/
def assign_splits (shuffle : Nat → List Nat → List Nat) (num_tracks : Nat)
    (train_ratio val_ratio test_ratio : ℚ) (seed : Nat) : List String :=
  let indices := shuffle seed (List.range num_tracks)
  let n_train := ((num_tracks : ℚ) * train_ratio).floor.toNat
  let n_val := ((num_tracks : ℚ) * val_ratio).floor.toNat
  writeLabels n_train n_val 0 indices (List.replicate num_tracks "")

/-- Aggregate result of `organize_dataset` (`organization_pipeline.py`
`OrganizationResult`).  The timestamp `organized_at` and the `config_used`
echo are environment data not referenced by any verified property and are
omitted. -/
structure OrganizationResult where
  source_path : String
  output_path : String
  total_tracks : Nat := 0
  successfully_processed : Nat := 0
  failed : Nat := 0
  skipped_invalid : Nat := 0
  tracks_needing_conversion : Nat := 0
  total_output_size_bytes : Nat := 0
  total_duration_sec : ℚ := 0
  split_distribution : List (String × Nat) := []
  track_mappings : List TrackMapping := []
  errors : List (String × String) := []
deriving DecidableEq

/-- Translation of `OrganizationPipeline.process_track`: resolve the
destination directory (split subdirectory when the split label is truthy and
its key is present, else the flat audio directory), record the destination
path, then convert or copy; failures of either external operation are
recorded on the mapping. -/
def process_track (f : FileEnv) (m : TrackMapping) (dirs : List (String × String))
    (split : Option String) : TrackMapping :=
  let audioDir := (dirs.lookup "audio").getD ""
  let dest_dir :=
    match split with
    | some s =>
        if !(s == "") then
          match dirs.lookup ("audio_" ++ s) with
          | some d => d
          | none => audioDir
        else audioDir
    | none => audioDir
  let output_path := dest_dir ++ "/" ++ m.new_filename
  let m1 := { m with new_path := output_path }
  if m1.needs_conversion then
    match f.convertError with
    | some e => { m1 with error := some e }
    | none => { m1 with conversion_done := true }
  else
    match f.copyError with
    | some e => { m1 with error := some e }
    | none => m1

/-- Steps 1-2 of `organize_dataset`: the audio files that survive the
optional pre-validation filter (`valid_files` holds the paths of valid
results when `validate_first`; with `skip_invalid` the enumeration is
restricted to them). -/
def organizeAudioFiles (cfg : DatasetConfig) (files : List FileEnv)
    (validate_first skip_invalid : Bool) (source : String) : List FileEnv :=
  let valReport := validate_dataset cfg source files true
  let valid_files := if validate_first
    then (valReport.file_results.filter (fun r => r.is_valid)).map (fun r => r.filepath)
    else []
  if validate_first && skip_invalid
    then files.filter (fun f => valid_files.contains f.path)
    else files

/-- Translation of `OrganizationPipeline.organize_dataset`.  `files` is the
(sorted) audio file enumeration of the source tree together with each file's
external-world outcomes; step 1's pre-validation reuses `validate_dataset`
with `check_integrity=True`.  Raised exceptions (the `AttributeError` of
`create_directory_structure` on a structure without `use_splits_subdirs`)
are propagated as `Except.error`.  Workers of step 6 complete in
nondeterministic order; every field of the result is order-independent, and
`track_mappings` keeps submission order as `mappings[idx]` does. -/
def organize_dataset (cfg : DatasetConfig) (files : List FileEnv)
    (validate_first skip_invalid create_splits : Bool)
    (shuffle : Nat → List Nat → List Nat)
    (source output : String) : Except String OrganizationResult :=
  let valReport := validate_dataset cfg source files true
  let skipped := if validate_first then valReport.invalid_audio_files else 0
  let audio_files := organizeAudioFiles cfg files validate_first skip_invalid source
  let total := audio_files.length
  let r0 : OrganizationResult :=
    { source_path := source, output_path := output,
      skipped_invalid := skipped, total_tracks := total }
  if total = 0 then .ok r0
  else do
    let dirs ← create_directory_structure cfg.dirStructure output
    let uss ← if create_splits then readUseSplitsSubdirs cfg.dirStructure else pure false
    let splitList? := if uss
      then some (assign_splits shuffle total (8/10 : ℚ) (1/10) (1/10) 42)
      else none
    let split_distribution :=
      match splitList? with
      | some sp => sp.dedup.map (fun s => (s, sp.count s))
      | none => []
    let plans := plan_tracks cfg audio_files
    let needCount := (plans.filter (fun m => m.needs_conversion)).length
    let processed := (audio_files.zip plans).enum.map (fun p =>
      process_track p.2.1 p.2.2 dirs
        (match splitList? with | some sp => sp[p.1]? | none => none))
    let failedList := processed.filter (fun m => m.error.isSome)
    let okList := processed.filter (fun m => m.error.isNone)
    let errs := failedList.map (fun m => (m.original_filename, pyStr m.error))
    let dur := (okList.map (fun m =>
      match m.audio_info with
      | some i => i.duration_sec
      | none => 0)).sum
    let size := ((audio_files.zip processed).map (fun q =>
      if !(q.2.new_path == "") && q.1.outputExists then q.1.outputSizeBytes else 0)).sum
    .ok { r0 with
      tracks_needing_conversion := needCount,
      track_mappings := processed,
      failed := failedList.length,
      successfully_processed := okList.length,
      total_duration_sec := dur,
      errors := errs,
      split_distribution := split_distribution,
      total_output_size_bytes := size }

/-! ## main.py : CLI exit codes -/

/-- Translation of `main.cmd_validate`: run the validation pipeline and
return `0` when no file is invalid, else `1`. -/
def cmd_validate (cfg : DatasetConfig) (root : String) (files : List FileEnv)
    (no_integrity : Bool) : Nat :=
  let report := validate_dataset cfg root files (!no_integrity)
  if report.invalid_audio_files = 0 then 0 else 1

/-- Translation of `main.cmd_organize`: run the organization pipeline and
return `0` when `result.failed == 0`, else `1`; an uncaught exception
propagates. -/
def cmd_organize (cfg : DatasetConfig) (files : List FileEnv)
    (no_validate include_invalid no_splits : Bool)
    (shuffle : Nat → List Nat → List Nat) (source output : String) :
    Except String Nat := do
  let result ← organize_dataset cfg files (!no_validate) (!include_invalid)
    (!no_splits) shuffle source output
  pure (if result.failed = 0 then 0 else 1)

/-- Translation of `main.cmd_full`: validate (report saved, not consulted for
the exit code), then organize with `validate_first=False`; return `0` when
`result.failed == 0`, else `1`. -/
def cmd_full (cfg : DatasetConfig) (files : List FileEnv)
    (include_invalid no_splits : Bool)
    (shuffle : Nat → List Nat → List Nat) (source output : String) :
    Except String Nat := do
  let _report := validate_dataset cfg source files true
  let result ← organize_dataset cfg files false (!include_invalid)
    (!no_splits) shuffle source output
  pure (if result.failed = 0 then 0 else 1)

/-- Paths that the result-collection loop appends to bucket `h`, in
processing order. -/
def hashContrib (rs : List AudioValidationResult) (h : String) : List String :=
  (rs.filter (fun r => hashEligible r && (r.file_hash == some h))).map
    (fun r => r.filepath)

/-- Extension of an optional bucket by a list of later appends. -/
def extendBucket : Option (List String) → List String → Option (List String)
  | none, [] => none
  | none, p :: ps => some (p :: ps)
  | some ps, l => some (ps ++ l)

/-- Value of a decimal digit string read left to right. -/
def decodeDigit (a : Nat) (c : Char) : Nat := 10 * a + (c.toNat - 48)

/-- Example duck-typed configuration whose structure object does carry a
`use_splits_subdirs` attribute (set to `False`), so organization runs to
completion. -/
def cfgWithSplitsAttr : DatasetConfig :=
  { dirStructure := { use_splits_subdirs_attr := some false } }

/-- Example file whose probe fails. -/
def badProbeFile : FileEnv :=
  { path := "s/bad.wav",
    info := { filepath := "s/bad.wav", duration_sec := 0, sample_rate := 0,
              channels := 0, bit_depth := none, format := "", codec := "",
              file_size_bytes := 0, is_valid := false,
              error_message := some "boom" },
    fileHash := "hb" }

/-- Example file that passes all checks of the default specification. -/
def goodFile : FileEnv :=
  { path := "s/good.wav",
    info := { filepath := "s/good.wav", duration_sec := 7, sample_rate := 44100,
              channels := 2, bit_depth := some 16, format := "wav", codec := "c",
              file_size_bytes := 3, is_valid := true },
    fileHash := "hg" }

/-! ## Claim C3: overall validity is the conjunction of the per-check flags -/

/-- C3: for every file and configuration, the result of `validate_audio_file`
satisfies `is_valid = (integrity_ok && duration_ok && sample_rate_ok &&
channels_ok && issues.isEmpty)`; moreover `is_valid` is false whenever the
probe failed or any enabled check (duration minimum, duration maximum,
sample rate, channels, integrity) fails, so validity is never obtained by
omission of an enabled check. -/
theorem validate_audio_file_is_valid_conjunction
    (cfg : DatasetConfig) (f : FileEnv) (ci : Bool) :
    ((validate_audio_file cfg f ci).is_valid
      = ((validate_audio_file cfg f ci).integrity_ok
        && (validate_audio_file cfg f ci).duration_ok
        && (validate_audio_file cfg f ci).sample_rate_ok
        && (validate_audio_file cfg f ci).channels_ok
        && (validate_audio_file cfg f ci).issues.isEmpty))
    ∧ (f.info.is_valid = false → (validate_audio_file cfg f ci).is_valid = false)
    ∧ (cfg.validation.check_duration_range = true → f.info.is_valid = true →
        f.info.duration_sec < cfg.audio.min_duration_sec →
        (validate_audio_file cfg f ci).is_valid = false)
    ∧ (cfg.validation.check_duration_range = true → f.info.is_valid = true →
        ∀ m, cfg.audio.max_duration_sec = some m → m ≠ 0 → m < f.info.duration_sec →
        (validate_audio_file cfg f ci).is_valid = false)
    ∧ (cfg.validation.check_sample_rate = true → f.info.is_valid = true →
        f.info.sample_rate ≠ cfg.audio.sample_rate →
        (validate_audio_file cfg f ci).is_valid = false)
    ∧ (cfg.validation.check_channels = true → f.info.is_valid = true →
        f.info.channels ≠ cfg.audio.channels →
        (validate_audio_file cfg f ci).is_valid = false)
    ∧ (ci = true → cfg.validation.check_audio_integrity = true → f.info.is_valid = true →
        f.integrity_ok = false →
        (validate_audio_file cfg f ci).is_valid = false) := by
  by_cases hv : f.info.is_valid
  · refine ⟨?_, ?_, ?_, ?_, ?_, ?_, ?_⟩
    · simp [validate_audio_file, hv, Bool.and_assoc]
    · intro h; rw [hv] at h; exact absurd h (by simp)
    · intro hc _ hd
      simp [validate_audio_file, hv, hc, hd]
    · intro hc _ m hm hm0 hd
      simp [validate_audio_file, hv, hc, hm, hm0, hd]
    · intro hc _ hsr
      simp [validate_audio_file, hv, hc, hsr]
    · intro hc _ hch
      simp [validate_audio_file, hv, hc, hch]
    · intro hci hc _ hint
      simp [validate_audio_file, hv, hci, hc, hint]
  · simp only [Bool.not_eq_true] at hv
    refine ⟨?_, fun _ => ?_, ?_, ?_, ?_, ?_, ?_⟩
    · simp [validate_audio_file, hv]
    · simp [validate_audio_file, hv]
    all_goals simp [hv]

/-- C3 witness: the theorem instantiated at the default configuration and a
concrete file whose sample rate is off. -/
theorem validate_audio_file_is_valid_conjunction_witness :
    (validate_audio_file DEFAULT_CONFIG
      { path := "d/x.wav",
        info := { filepath := "d/x.wav", duration_sec := 30, sample_rate := 48000,
                  channels := 2, bit_depth := some 16, format := "wav", codec := "c",
                  file_size_bytes := 4, is_valid := true },
        fileHash := "h" } true).is_valid = false := by
  have h := (validate_audio_file_is_valid_conjunction DEFAULT_CONFIG
    { path := "d/x.wav",
      info := { filepath := "d/x.wav", duration_sec := 30, sample_rate := 48000,
                channels := 2, bit_depth := some 16, format := "wav", codec := "c",
                file_size_bytes := 4, is_valid := true },
      fileHash := "h" } true).2.2.2.2.1
  exact h rfl rfl (by decide)

/-! ## Shared facts about validate_audio_file -/

/-- On a failed probe, `validate_audio_file` is exactly the early-return
record of lines 238-241. -/
theorem vaf_probe_fail_eq (cfg : DatasetConfig) (f : FileEnv)
    (ci : Bool) (h : f.info.is_valid = false) :
    validate_audio_file cfg f ci =
      { filepath := f.path, filename := pathName f.path, is_valid := false,
        audio_info := some f.info,
        integrity_ok := true, duration_ok := true, sample_rate_ok := true,
        channels_ok := true, file_hash := none, audio_hash := none,
        issues := ["Erro ao ler arquivo: " ++ pyStr f.info.error_message] } := by
  simp [validate_audio_file, h]

/-- The result of `validate_audio_file` always records the input path. -/
theorem vaf_filepath (cfg : DatasetConfig) (f : FileEnv) (ci : Bool) :
    (validate_audio_file cfg f ci).filepath = f.path := by
  cases hv : f.info.is_valid <;> simp [validate_audio_file, hv]

/-- The result of `validate_audio_file` always carries the probe snapshot. -/
theorem vaf_audio_info (cfg : DatasetConfig) (f : FileEnv) (ci : Bool) :
    (validate_audio_file cfg f ci).audio_info = some f.info := by
  cases hv : f.info.is_valid <;> simp [validate_audio_file, hv]

/-- The byte-content hash is recorded exactly when the probe succeeded and
duplicates are not allowed. -/
theorem vaf_file_hash (cfg : DatasetConfig) (f : FileEnv) (ci : Bool) :
    (validate_audio_file cfg f ci).file_hash
      = if f.info.is_valid && !cfg.validation.allow_duplicates
        then some f.fileHash else none := by
  cases hv : f.info.is_valid <;> simp [validate_audio_file, hv]

/-- When the result enters the duplicate hash map, characterized at the level
of the file environment. -/
theorem vaf_hashEligible (cfg : DatasetConfig) (f : FileEnv) (ci : Bool) :
    hashEligible (validate_audio_file cfg f ci)
      = (f.info.is_valid
          && (!cfg.validation.allow_duplicates && !(f.fileHash == ""))) := by
  cases hv : f.info.is_valid
  · simp [hashEligible, vaf_probe_fail_eq cfg f ci hv, hv]
  · cases ha : cfg.validation.allow_duplicates <;>
      simp [hashEligible, validate_audio_file, hv, ha, vaf_audio_info]

/-! ## Claim C5: probe failure short-circuits validation -/

/-- C5: when the probe reports failure, `validate_audio_file` returns
immediately: the result is exactly the record carrying `is_valid = false`
and one issue with the probe's error message, with every per-check flag at
its default `true`, both hashes `None`, and no dependence on the integrity
or hashing outcomes (none of those computations run); no error is raised. -/
theorem validate_audio_file_probe_failure (cfg : DatasetConfig) (f : FileEnv)
    (ci : Bool) (h : f.info.is_valid = false) :
    validate_audio_file cfg f ci =
      { filepath := f.path, filename := pathName f.path, is_valid := false,
        audio_info := some f.info,
        integrity_ok := true, duration_ok := true, sample_rate_ok := true,
        channels_ok := true, file_hash := none, audio_hash := none,
        issues := ["Erro ao ler arquivo: " ++ pyStr f.info.error_message] } :=
  vaf_probe_fail_eq cfg f ci h

/-- C5 witness: a concrete unreadable file under the default configuration. -/
theorem validate_audio_file_probe_failure_witness :
    validate_audio_file DEFAULT_CONFIG
      { path := "d/broken.mp3",
        info := { filepath := "d/broken.mp3", duration_sec := 0, sample_rate := 0,
                  channels := 0, bit_depth := none, format := "", codec := "",
                  file_size_bytes := 0, is_valid := false,
                  error_message := some "probe exploded" },
        integrity_ok := false, fileHash := "hh" } true =
      { filepath := "d/broken.mp3", filename := "broken.mp3", is_valid := false,
        audio_info := some { filepath := "d/broken.mp3", duration_sec := 0,
                             sample_rate := 0, channels := 0, bit_depth := none,
                             format := "", codec := "", file_size_bytes := 0,
                             is_valid := false, error_message := some "probe exploded" },
        issues := ["Erro ao ler arquivo: probe exploded"] } := by
  have h := validate_audio_file_probe_failure DEFAULT_CONFIG
    { path := "d/broken.mp3",
      info := { filepath := "d/broken.mp3", duration_sec := 0, sample_rate := 0,
                channels := 0, bit_depth := none, format := "", codec := "",
                file_size_bytes := 0, is_valid := false,
                error_message := some "probe exploded" },
      integrity_ok := false, fileHash := "hh" } true rfl
  exact h.trans (by decide)

/-! ## The duplicate hash map: bucket characterization -/

theorem lookup_bumpBucket (m : List (String × List String)) (h p h' : String) :
    List.lookup h' (bumpBucket m h p)
      = if h' = h then some ((List.lookup h m).getD [] ++ [p])
        else List.lookup h' m := by
  induction m with
  | nil =>
      by_cases he : h' = h
      · subst he; simp [bumpBucket, List.lookup_cons]
      · simp [bumpBucket, List.lookup_cons, beq_false_of_ne he, he]
  | cons e rest ih =>
      obtain ⟨k, ps⟩ := e
      by_cases hk : k = h
      · subst hk
        by_cases he : h' = k
        · subst he; simp [bumpBucket, List.lookup_cons]
        · simp [bumpBucket, List.lookup_cons, beq_false_of_ne he, he]
      · by_cases he : h' = k
        · subst he
          have hk' : ¬h' = h := by simpa [eq_comm] using hk
          simp [bumpBucket, hk, List.lookup_cons, hk']
        · have hk' : (h == k) = false := beq_false_of_ne (fun hh => hk hh.symm)
          simp [bumpBucket, hk, List.lookup_cons, beq_false_of_ne he, hk', ih]

theorem extendBucket_some_append (o : Option (List String)) (p : String)
    (c : List String) :
    extendBucket (some (o.getD [] ++ [p])) c = extendBucket o (p :: c) := by
  cases o <;> simp [extendBucket]

theorem lookup_hashMapFold (rs : List AudioValidationResult) :
    ∀ (m : List (String × List String)) (h : String),
      List.lookup h (rs.foldl hashMapStep m)
        = extendBucket (List.lookup h m) (hashContrib rs h) := by
  induction rs with
  | nil =>
      intro m h
      cases hm : List.lookup h m <;> simp [hashContrib, extendBucket, hm]
  | cons r rest ih =>
      intro m h
      rw [List.foldl_cons, ih]
      by_cases he : hashEligible r
      · cases hfh : r.file_hash with
        | none => simp [hashEligible, hfh] at he
        | some fh =>
            by_cases hfhh : fh = h
            · subst hfhh
              have hstep : hashMapStep m r = bumpBucket m fh r.filepath := by
                simp [hashMapStep, he, hfh]
              rw [hstep, lookup_bumpBucket, if_pos rfl, extendBucket_some_append]
              have hc : hashContrib (r :: rest) fh = r.filepath :: hashContrib rest fh := by
                simp [hashContrib, he, hfh]
              rw [hc]
            · have hstep : hashMapStep m r = bumpBucket m fh r.filepath := by
                simp [hashMapStep, he, hfh]
              have hc : hashContrib (r :: rest) h = hashContrib rest h := by
                simp [hashContrib, he, hfh, hfhh]
              rw [hstep, lookup_bumpBucket, if_neg (fun hh => hfhh hh.symm), hc]
      · have hstep : hashMapStep m r = m := by
          simp [hashMapStep, he]
        have hc : hashContrib (r :: rest) h = hashContrib rest h := by
          simp [hashContrib, he]
        rw [hstep, hc]

/-- Buckets of the accumulated hash map are exactly the nonempty
contribution lists. -/
theorem lookup_hashMapOf (rs : List AudioValidationResult) (h : String) :
    List.lookup h (hashMapOf rs) = extendBucket none (hashContrib rs h) := by
  have h1 := lookup_hashMapFold rs [] h
  simpa [hashMapOf, List.lookup] using h1

theorem keys_bumpBucket (m : List (String × List String)) (h p : String) :
    (bumpBucket m h p).map Prod.fst
      = if h ∈ m.map Prod.fst then m.map Prod.fst else m.map Prod.fst ++ [h] := by
  induction m with
  | nil => simp [bumpBucket]
  | cons e rest ih =>
      obtain ⟨k, ps⟩ := e
      by_cases hk : k = h
      · subst hk; simp [bumpBucket]
      · by_cases hm : h ∈ rest.map Prod.fst <;>
          simp [bumpBucket, hk, ih, hm, Ne.symm hk]

theorem nodup_keys_hashMapStep (m : List (String × List String))
    (r : AudioValidationResult) (hm : (m.map Prod.fst).Nodup) :
    ((hashMapStep m r).map Prod.fst).Nodup := by
  by_cases he : hashEligible r
  · cases hfh : r.file_hash with
    | none => simpa [hashMapStep, he, hfh] using hm
    | some fh =>
        have hstep : hashMapStep m r = bumpBucket m fh r.filepath := by
          simp [hashMapStep, he, hfh]
        rw [hstep, keys_bumpBucket]
        by_cases hmem : fh ∈ m.map Prod.fst
        · simpa [hmem] using hm
        · rw [if_neg hmem]
          exact List.Nodup.append hm (List.nodup_singleton fh)
            (by simpa [List.disjoint_singleton] using hmem)
  · simpa [hashMapStep, he] using hm

theorem nodup_keys_hashMapOf (rs : List AudioValidationResult) :
    ((hashMapOf rs).map Prod.fst).Nodup := by
  suffices h : ∀ m : List (String × List String), (m.map Prod.fst).Nodup →
      ((rs.foldl hashMapStep m).map Prod.fst).Nodup by
    exact h [] (by simp)
  induction rs with
  | nil => intro m hm; simpa using hm
  | cons r rest ih =>
      intro m hm
      rw [List.foldl_cons]
      exact ih _ (nodup_keys_hashMapStep m r hm)

theorem mem_of_lookup_eq_some {m : List (String × List String)} {k : String}
    {ps : List String} (h : List.lookup k m = some ps) : (k, ps) ∈ m := by
  induction m with
  | nil => simp [List.lookup] at h
  | cons e rest ih =>
      obtain ⟨k', ps'⟩ := e
      by_cases hk : k = k'
      · subst hk
        simp [List.lookup_cons] at h
        simp [h]
      · simp [List.lookup_cons, beq_false_of_ne hk] at h
        exact List.mem_cons_of_mem _ (ih h)

theorem lookup_eq_some_of_mem_nodup {m : List (String × List String)} {k : String}
    {ps : List String} (hn : (m.map Prod.fst).Nodup) (h : (k, ps) ∈ m) :
    List.lookup k m = some ps := by
  induction m with
  | nil => simp at h
  | cons e rest ih =>
      obtain ⟨k', ps'⟩ := e
      rcases List.mem_cons.mp h with h1 | h1
      · cases h1
        simp [List.lookup_cons]
      · have hk : k ≠ k' := by
          rintro rfl
          simp only [List.map_cons, List.nodup_cons] at hn
          exact hn.1 (List.mem_map.mpr ⟨(k, ps), h1, rfl⟩)
        simp only [List.map_cons, List.nodup_cons] at hn
        simp [List.lookup_cons, beq_false_of_ne hk]
        exact ih hn.2 h1

/-! ## validate_dataset projections -/

theorem vd_file_results (cfg : DatasetConfig) (root : String) (files : List FileEnv)
    (ci : Bool) :
    (validate_dataset cfg root files ci).file_results
      = files.map (fun f => validate_audio_file cfg f ci) := by
  by_cases h : files.length = 0
  · have h0 : files = [] := List.length_eq_zero.mp h
    subst h0; simp [validate_dataset]
  · simp [validate_dataset, h]

theorem vd_total (cfg : DatasetConfig) (root : String) (files : List FileEnv)
    (ci : Bool) :
    (validate_dataset cfg root files ci).total_audio_files = files.length := by
  by_cases h : files.length = 0
  · have h0 : files = [] := List.length_eq_zero.mp h
    subst h0; simp [validate_dataset]
  · simp [validate_dataset, h]

theorem vd_invalid (cfg : DatasetConfig) (root : String) (files : List FileEnv)
    (ci : Bool) :
    (validate_dataset cfg root files ci).invalid_audio_files
      = ((files.map (fun f => validate_audio_file cfg f ci)).filter
          (fun r => !r.is_valid)).length := by
  by_cases h : files.length = 0
  · have h0 : files = [] := List.length_eq_zero.mp h
    subst h0; simp [validate_dataset]
  · simp [validate_dataset, h]

theorem vd_valid (cfg : DatasetConfig) (root : String) (files : List FileEnv)
    (ci : Bool) :
    (validate_dataset cfg root files ci).valid_audio_files
      = ((files.map (fun f => validate_audio_file cfg f ci)).filter
          (fun r => r.is_valid)).length := by
  by_cases h : files.length = 0
  · have h0 : files = [] := List.length_eq_zero.mp h
    subst h0; simp [validate_dataset]
  · simp [validate_dataset, h]

theorem vd_duplicates (cfg : DatasetConfig) (root : String) (files : List FileEnv)
    (ci : Bool) :
    (validate_dataset cfg root files ci).duplicates_found
      = (hashMapOf (files.map (fun f => validate_audio_file cfg f ci))).filter
          (fun e => decide (1 < e.2.length)) := by
  by_cases h : files.length = 0
  · have h0 : files = [] := List.length_eq_zero.mp h
    subst h0; simp [validate_dataset, hashMapOf]
  · simp [validate_dataset, h]

/-! ## Bucket membership at the file level -/

theorem extendBucket_none_eq_some {c ps : List String}
    (h : extendBucket none c = some ps) : c = ps := by
  cases c with
  | nil => simp [extendBucket] at h
  | cons p rest => simpa [extendBucket] using h

theorem extendBucket_none_of_ne_nil {c : List String} (h : c ≠ []) :
    extendBucket none c = some c := by
  cases c with
  | nil => exact absurd rfl h
  | cons p rest => simp [extendBucket]

/-- The Boolean test guarding an append to bucket `h`, pushed down to the file
environment. -/
theorem vaf_hash_pred (cfg : DatasetConfig) (f : FileEnv) (ci : Bool) (h : String) :
    (hashEligible (validate_audio_file cfg f ci)
      && ((validate_audio_file cfg f ci).file_hash == some h))
    = (f.info.is_valid && (!cfg.validation.allow_duplicates
        && (!(f.fileHash == "") && (f.fileHash == h)))) := by
  rw [vaf_hashEligible, vaf_file_hash]
  by_cases hfh : f.fileHash = h
  · subst hfh
    cases hv : f.info.is_valid <;> cases ha : cfg.validation.allow_duplicates <;> simp
  · have h1 : (f.fileHash == h) = false := beq_false_of_ne hfh
    have h2 : ((some f.fileHash : Option String) == some h) = false :=
      beq_false_of_ne (fun hc => hfh (Option.some.inj hc))
    cases hv : f.info.is_valid <;> cases ha : cfg.validation.allow_duplicates <;>
      simp [h1, h2]

theorem hashContrib_map (cfg : DatasetConfig) (ci : Bool) (files : List FileEnv)
    (h : String) :
    hashContrib (files.map (fun f => validate_audio_file cfg f ci)) h
      = (files.filter (fun f => f.info.is_valid && (!cfg.validation.allow_duplicates
            && (!(f.fileHash == "") && (f.fileHash == h))))).map
          (fun f => f.path) := by
  induction files with
  | nil => simp [hashContrib]
  | cons f rest ih =>
      rw [List.map_cons]
      show (List.filter _ (validate_audio_file cfg f ci :: _)).map _ = _
      rw [List.filter_cons, List.filter_cons, vaf_hash_pred]
      by_cases hp : (f.info.is_valid && (!cfg.validation.allow_duplicates
          && (!(f.fileHash == "") && (f.fileHash == h)))) = true
      · simp only [hp, if_true, List.map_cons, vaf_filepath]
        exact congrArg (f.path :: ·) ih
      · simp only [Bool.not_eq_true] at hp
        simp only [hp, Bool.false_eq_true, if_false]
        exact ih

/-- Any path found in a bucket of the accumulated hash map comes from an
input file that was probe-valid, had duplicates disabled, a nonempty byte
hash, and exactly the bucket's key as hash. -/
theorem path_in_bucket (cfg : DatasetConfig) (ci : Bool) (files : List FileEnv)
    {k : String} {ps : List String} {p : String}
    (hg : (k, ps) ∈ hashMapOf (files.map (fun f => validate_audio_file cfg f ci)))
    (hp : p ∈ ps) :
    ∃ f ∈ files, f.path = p ∧ f.info.is_valid = true
      ∧ cfg.validation.allow_duplicates = false ∧ f.fileHash = k
      ∧ f.fileHash ≠ "" := by
  have hlk := lookup_eq_some_of_mem_nodup (nodup_keys_hashMapOf _) hg
  rw [lookup_hashMapOf] at hlk
  have hc := extendBucket_none_eq_some hlk
  rw [hashContrib_map] at hc
  rw [← hc] at hp
  obtain ⟨f, hf, hfp⟩ := List.mem_map.mp hp
  obtain ⟨hfm, hpred⟩ := List.mem_filter.mp hf
  simp only [Bool.and_eq_true, Bool.not_eq_true', beq_iff_eq, Bool.not_eq_true,
    beq_eq_false_iff_ne, ne_eq] at hpred
  exact ⟨f, hfm, hfp, hpred.1, hpred.2.1, hpred.2.2.2, hpred.2.2.1⟩

/-- Buckets with the same key in a nodup-keyed association list coincide. -/
theorem bucket_eq_of_same_key {m : List (String × List String)} {k : String}
    {ps ps' : List String} (hn : (m.map Prod.fst).Nodup)
    (h1 : (k, ps) ∈ m) (h2 : (k, ps') ∈ m) : ps = ps' := by
  have e1 := lookup_eq_some_of_mem_nodup hn h1
  have e2 := lookup_eq_some_of_mem_nodup hn h2
  rw [e1] at e2
  injection e2

theorem two_mem_one_lt_length {α : Type} {a b : α} {l : List α}
    (ha : a ∈ l) (hb : b ∈ l) (hab : a ≠ b) : 1 < l.length := by
  match l with
  | [] => cases ha
  | [x] =>
      simp only [List.mem_singleton] at ha hb
      exact absurd (ha.trans hb.symm) hab
  | x :: y :: rest => simp only [List.length_cons]; omega

/-! ## Claim C10: probe-failed files keep defaults and never join duplicate groups -/

/-- C10: a file whose probe fails gets a validation result whose per-check
flags `integrity_ok`, `duration_ok`, `sample_rate_ok`, `channels_ok` stay at
their default `true` and whose `file_hash` and `audio_hash` are `None`; and
(for the distinct paths `find_audio_files` yields) its path never appears in
any duplicate group of the aggregated report. -/
theorem probe_failed_no_duplicate_group
    (cfg : DatasetConfig) (root : String) (files : List FileEnv) (ci : Bool)
    (f : FileEnv) (hmem : f ∈ files) (hv : f.info.is_valid = false) :
    ((validate_audio_file cfg f ci).integrity_ok = true
      ∧ (validate_audio_file cfg f ci).duration_ok = true
      ∧ (validate_audio_file cfg f ci).sample_rate_ok = true
      ∧ (validate_audio_file cfg f ci).channels_ok = true
      ∧ (validate_audio_file cfg f ci).file_hash = none
      ∧ (validate_audio_file cfg f ci).audio_hash = none)
    ∧ ((files.map FileEnv.path).Nodup →
        ∀ g ∈ (validate_dataset cfg root files ci).duplicates_found,
          f.path ∉ g.2) := by
  constructor
  · rw [vaf_probe_fail_eq cfg f ci hv]
    exact ⟨rfl, rfl, rfl, rfl, rfl, rfl⟩
  · intro hnd g hg hpg
    rw [vd_duplicates] at hg
    obtain ⟨hgm, _⟩ := List.mem_filter.mp hg
    obtain ⟨f', hf'm, hf'p, hf'v, -⟩ :=
      path_in_bucket cfg ci files hgm hpg
    have hff : f' = f := List.inj_on_of_nodup_map hnd hf'm hmem hf'p
    rw [hff] at hf'v
    rw [hv] at hf'v
    exact Bool.false_ne_true hf'v

/-- C10 witness: one probe-failed file among two; it is absent from the
(empty) duplicate list of the concrete report. -/
theorem probe_failed_no_duplicate_group_witness :
    (validate_audio_file DEFAULT_CONFIG
      { path := "r/bad.wav",
        info := { filepath := "r/bad.wav", duration_sec := 0, sample_rate := 0,
                  channels := 0, bit_depth := none, format := "", codec := "",
                  file_size_bytes := 0, is_valid := false,
                  error_message := some "boom" },
        fileHash := "zz" } true).file_hash = none
    ∧ (∀ g ∈ (validate_dataset DEFAULT_CONFIG "r"
        [{ path := "r/bad.wav",
           info := { filepath := "r/bad.wav", duration_sec := 0, sample_rate := 0,
                     channels := 0, bit_depth := none, format := "", codec := "",
                     file_size_bytes := 0, is_valid := false,
                     error_message := some "boom" },
           fileHash := "zz" }] true).duplicates_found,
        "r/bad.wav" ∉ g.2) := by
  have h := probe_failed_no_duplicate_group DEFAULT_CONFIG "r"
    [{ path := "r/bad.wav",
       info := { filepath := "r/bad.wav", duration_sec := 0, sample_rate := 0,
                 channels := 0, bit_depth := none, format := "", codec := "",
                 file_size_bytes := 0, is_valid := false,
                 error_message := some "boom" },
       fileHash := "zz" }]
    true
    { path := "r/bad.wav",
      info := { filepath := "r/bad.wav", duration_sec := 0, sample_rate := 0,
                channels := 0, bit_depth := none, format := "", codec := "",
                file_size_bytes := 0, is_valid := false,
                error_message := some "boom" },
      fileHash := "zz" }
    (by decide) rfl
  exact ⟨h.1.2.2.2.2.1, h.2 (by decide)⟩

/-! ## Claim C6: duplicate groups (corrected) -/

/-- C6 counterexample: two distinct files with identical byte-content hash
whose probes fail appear in NO duplicate group at all (the report's
`duplicates_found` is empty), contradicting the claim that two files with
identical byte-content hash always appear together in exactly one group. -/
theorem duplicates_identical_hash_counterexample :
    (({ path := "r/a.wav",
        info := { filepath := "r/a.wav", duration_sec := 0, sample_rate := 0,
                  channels := 0, bit_depth := none, format := "", codec := "",
                  file_size_bytes := 0, is_valid := false,
                  error_message := some "unreadable" },
        fileHash := "cafebabe" } : FileEnv).fileHash
      = ({ path := "r/b.wav",
           info := { filepath := "r/b.wav", duration_sec := 0, sample_rate := 0,
                     channels := 0, bit_depth := none, format := "", codec := "",
                     file_size_bytes := 0, is_valid := false,
                     error_message := some "unreadable" },
           fileHash := "cafebabe" } : FileEnv).fileHash)
    ∧ "r/a.wav" ≠ "r/b.wav"
    ∧ (validate_dataset DEFAULT_CONFIG "r"
        [{ path := "r/a.wav",
           info := { filepath := "r/a.wav", duration_sec := 0, sample_rate := 0,
                     channels := 0, bit_depth := none, format := "", codec := "",
                     file_size_bytes := 0, is_valid := false,
                     error_message := some "unreadable" },
           fileHash := "cafebabe" },
         { path := "r/b.wav",
           info := { filepath := "r/b.wav", duration_sec := 0, sample_rate := 0,
                     channels := 0, bit_depth := none, format := "", codec := "",
                     file_size_bytes := 0, is_valid := false,
                     error_message := some "unreadable" },
           fileHash := "cafebabe" }] true).duplicates_found = [] := by
  exact ⟨rfl, by decide, by decide⟩

/-- C6 (amended): in every report of `validate_dataset`, every duplicate
group has at least two paths; given the distinct paths `find_audio_files`
yields, each path appears in at most one group; and two distinct files with
identical (nonempty) byte-content hash, both of which probe successfully,
under a configuration that does not allow duplicates, appear together in
exactly one duplicate group.  (The last conjunct is the claim's third part
restricted to successfully probed files with duplicate detection enabled —
the counterexample shows the unrestricted statement is false.) -/
theorem duplicates_found_groups
    (cfg : DatasetConfig) (root : String) (files : List FileEnv) (ci : Bool) :
    (∀ g ∈ (validate_dataset cfg root files ci).duplicates_found, 2 ≤ g.2.length)
    ∧ ((files.map FileEnv.path).Nodup →
        ∀ p g g', g ∈ (validate_dataset cfg root files ci).duplicates_found →
          g' ∈ (validate_dataset cfg root files ci).duplicates_found →
          p ∈ g.2 → p ∈ g'.2 → g = g')
    ∧ ((files.map FileEnv.path).Nodup → cfg.validation.allow_duplicates = false →
        ∀ f1 f2, f1 ∈ files → f2 ∈ files → f1.path ≠ f2.path →
          f1.fileHash = f2.fileHash → f1.fileHash ≠ "" →
          f1.info.is_valid = true → f2.info.is_valid = true →
          ∃ g ∈ (validate_dataset cfg root files ci).duplicates_found,
            f1.path ∈ g.2 ∧ f2.path ∈ g.2
            ∧ ∀ g' ∈ (validate_dataset cfg root files ci).duplicates_found,
                (f1.path ∈ g'.2 ∨ f2.path ∈ g'.2) → g' = g) := by
  refine ⟨?_, ?_, ?_⟩
  · intro g hg
    rw [vd_duplicates] at hg
    have := (List.mem_filter.mp hg).2
    simpa using this
  · intro hnd p g g' hg hg' hpg hpg'
    rw [vd_duplicates] at hg hg'
    obtain ⟨k1, ps1⟩ := g
    obtain ⟨k2, ps2⟩ := g'
    obtain ⟨hgm, -⟩ := List.mem_filter.mp hg
    obtain ⟨hgm', -⟩ := List.mem_filter.mp hg'
    obtain ⟨f1, hf1m, hf1p, -, -, hf1h, -⟩ := path_in_bucket cfg ci files hgm hpg
    obtain ⟨f2, hf2m, hf2p, -, -, hf2h, -⟩ := path_in_bucket cfg ci files hgm' hpg'
    have hff : f1 = f2 := List.inj_on_of_nodup_map hnd hf1m hf2m (hf1p.trans hf2p.symm)
    have hkey : k1 = k2 := by rw [← hf1h, hff, hf2h]
    subst hkey
    have hval : ps1 = ps2 := bucket_eq_of_same_key (nodup_keys_hashMapOf _) hgm hgm'
    rw [hval]
  · intro hnd hall f1 f2 hf1 hf2 hpp hhash hne hv1 hv2
    set results := files.map (fun f => validate_audio_file cfg f ci) with hres
    set c := hashContrib results f1.fileHash with hcdef
    have hc : c = (files.filter (fun f => f.info.is_valid
        && (!cfg.validation.allow_duplicates
            && (!(f.fileHash == "") && (f.fileHash == f1.fileHash))))).map
          (fun f => f.path) := by
      rw [hcdef, hres, hashContrib_map]
    have hp1 : f1.path ∈ c := by
      rw [hc]
      refine List.mem_map.mpr ⟨f1, List.mem_filter.mpr ⟨hf1, ?_⟩, rfl⟩
      simp [hv1, hall, beq_false_of_ne hne]
    have hp2 : f2.path ∈ c := by
      rw [hc]
      refine List.mem_map.mpr ⟨f2, List.mem_filter.mpr ⟨hf2, ?_⟩, rfl⟩
      have : f2.fileHash ≠ "" := by rw [← hhash]; exact hne
      simp [hv2, hall, beq_false_of_ne this, hhash]
    have hcne : c ≠ [] := by
      intro h0; rw [h0] at hp1; cases hp1
    have hlk : List.lookup f1.fileHash (hashMapOf results) = some c := by
      rw [lookup_hashMapOf, ← hcdef, extendBucket_none_of_ne_nil hcne]
    have hgm : (f1.fileHash, c) ∈ hashMapOf results := mem_of_lookup_eq_some hlk
    have hlen : 1 < c.length := two_mem_one_lt_length hp1 hp2 hpp
    have hgd : (f1.fileHash, c) ∈
        (validate_dataset cfg root files ci).duplicates_found := by
      rw [vd_duplicates]
      exact List.mem_filter.mpr ⟨hgm, by simpa using hlen⟩
    refine ⟨(f1.fileHash, c), hgd, hp1, hp2, ?_⟩
    intro g' hg' hpor
    rw [vd_duplicates] at hg'
    obtain ⟨k', ps'⟩ := g'
    obtain ⟨hgm', -⟩ := List.mem_filter.mp hg'
    have hkey : k' = f1.fileHash := by
      rcases hpor with hpa | hpb
      · obtain ⟨f', hf'm, hf'p, -, -, hf'h, -⟩ :=
          path_in_bucket cfg ci files hgm' hpa
        have hh : f' = f1 := List.inj_on_of_nodup_map hnd hf'm hf1 hf'p
        rw [← hf'h, hh]
      · obtain ⟨f', hf'm, hf'p, -, -, hf'h, -⟩ :=
          path_in_bucket cfg ci files hgm' hpb
        have hh : f' = f2 := List.inj_on_of_nodup_map hnd hf'm hf2 hf'p
        rw [← hf'h, hh, ← hhash]
    subst hkey
    have hval : ps' = c := bucket_eq_of_same_key (nodup_keys_hashMapOf results) hgm' hgm
    rw [hval]

/-- C6 witness: two concrete byte-identical valid files form exactly one
duplicate group containing both. -/
theorem duplicates_found_groups_witness :
    ∃ g ∈ (validate_dataset DEFAULT_CONFIG "r"
      [{ path := "r/a.wav",
         info := { filepath := "r/a.wav", duration_sec := 10, sample_rate := 44100,
                   channels := 2, bit_depth := some 16, format := "wav", codec := "c",
                   file_size_bytes := 9, is_valid := true },
         fileHash := "h1" },
       { path := "r/b.wav",
         info := { filepath := "r/b.wav", duration_sec := 10, sample_rate := 44100,
                   channels := 2, bit_depth := some 16, format := "wav", codec := "c",
                   file_size_bytes := 9, is_valid := true },
         fileHash := "h1" }] true).duplicates_found,
      "r/a.wav" ∈ g.2 ∧ "r/b.wav" ∈ g.2 := by
  obtain ⟨g, hg, h1, h2, -⟩ :=
    (duplicates_found_groups DEFAULT_CONFIG "r"
      [{ path := "r/a.wav",
         info := { filepath := "r/a.wav", duration_sec := 10, sample_rate := 44100,
                   channels := 2, bit_depth := some 16, format := "wav", codec := "c",
                   file_size_bytes := 9, is_valid := true },
         fileHash := "h1" },
       { path := "r/b.wav",
         info := { filepath := "r/b.wav", duration_sec := 10, sample_rate := 44100,
                   channels := 2, bit_depth := some 16, format := "wav", codec := "c",
                   file_size_bytes := 9, is_valid := true },
         fileHash := "h1" }] true).2.2
      (by decide) rfl
      { path := "r/a.wav",
        info := { filepath := "r/a.wav", duration_sec := 10, sample_rate := 44100,
                  channels := 2, bit_depth := some 16, format := "wav", codec := "c",
                  file_size_bytes := 9, is_valid := true },
        fileHash := "h1" }
      { path := "r/b.wav",
        info := { filepath := "r/b.wav", duration_sec := 10, sample_rate := 44100,
                  channels := 2, bit_depth := some 16, format := "wav", codec := "c",
                  file_size_bytes := 9, is_valid := true },
        fileHash := "h1" }
      (by decide) (by decide) (by decide) rfl (by decide) rfl rfl
  exact ⟨g, hg, h1, h2⟩

/-! ## Claim C2: split assignment machinery -/

/-- `Rat.floor.toNat` (Python `int()` on a nonnegative float) is the natural
floor. -/
theorem ratFloorToNat (q : ℚ) : q.floor.toNat = ⌊q⌋₊ := by
  have h : q.floor = ⌊q⌋ := by rw [Rat.floor_def, Rat.floor_def']
  rw [h, Int.floor_toNat]

theorem writeLabels_length (nT nV : Nat) :
    ∀ (idxs : List Nat) (i : Nat) (splits : List String),
      (writeLabels nT nV i idxs splits).length = splits.length := by
  intro idxs
  induction idxs with
  | nil => intro i splits; rfl
  | cons a rest ih =>
      intro i splits
      rw [writeLabels, ih, List.length_set]

theorem writeLabels_getElem? (nT nV : Nat) :
    ∀ (idxs : List Nat) (i : Nat) (splits : List String) (j : Nat),
      idxs.Nodup → (∀ x ∈ idxs, x < splits.length) →
      (writeLabels nT nV i idxs splits)[j]?
        = if j ∈ idxs then some (splitLabel nT nV (i + List.indexOf j idxs))
          else splits[j]? := by
  intro idxs
  induction idxs with
  | nil => intro i splits j _ _; simp [writeLabels]
  | cons a rest ih =>
      intro i splits j hnd hlt
      have hnd' : rest.Nodup := (List.nodup_cons.mp hnd).2
      have hna : a ∉ rest := (List.nodup_cons.mp hnd).1
      have hlt' : ∀ x ∈ rest, x < (splits.set a (splitLabel nT nV i)).length := by
        intro x hx; rw [List.length_set]; exact hlt x (List.mem_cons_of_mem _ hx)
      rw [writeLabels, ih (i + 1) _ j hnd' hlt']
      by_cases hj : j ∈ rest
      · have hjne : a ≠ j := fun h => hna (h ▸ hj)
        rw [if_pos hj, if_pos (List.mem_cons_of_mem a hj),
          List.indexOf_cons_ne _ hjne]
        have harith : i + 1 + List.indexOf j rest
            = i + (List.indexOf j rest).succ := by omega
        rw [harith]
      · by_cases hja : j = a
        · subst hja
          rw [if_neg hj, if_pos (List.mem_cons_self j rest),
            List.indexOf_cons_self, Nat.add_zero,
            List.getElem?_set_self (hlt j (List.mem_cons_self j rest))]
        · have hnotin : j ∉ a :: rest := by
            simp [hja, hj]
          rw [if_neg hj, if_neg hnotin,
            List.getElem?_set_ne (fun h => hja h.symm)]

/-- Pointwise description of the split list: position `j` holds the label of
`j`'s shuffled position. -/
theorem writeLabels_eq_map (nT nV N : Nat) (idxs : List Nat)
    (hperm : idxs.Perm (List.range N)) :
    writeLabels nT nV 0 idxs (List.replicate N "")
      = (List.range N).map (fun j => splitLabel nT nV (List.indexOf j idxs)) := by
  have hnd : idxs.Nodup := hperm.nodup_iff.mpr (List.nodup_range _)
  have hmem : ∀ x, x ∈ idxs ↔ x < N := fun x => by
    rw [hperm.mem_iff, List.mem_range]
  have hlt : ∀ x ∈ idxs, x < (List.replicate N "").length := by
    intro x hx; rw [List.length_replicate]; exact (hmem x).mp hx
  apply List.ext_getElem?
  intro j
  rw [writeLabels_getElem? nT nV idxs 0 _ j hnd hlt]
  by_cases hj : j < N
  · rw [if_pos ((hmem j).mpr hj)]
    rw [List.getElem?_map, List.getElem?_range hj]
    simp
  · rw [if_neg (fun h => hj ((hmem j).mp h))]
    rw [List.getElem?_eq_none (by simpa using Nat.le_of_not_lt hj),
      List.getElem?_eq_none (by simpa using Nat.le_of_not_lt hj)]

/-- The shuffled positions of `0..N-1` are again a permutation of `0..N-1`. -/
theorem indexOf_map_range_perm (N : Nat) (idxs : List Nat)
    (hperm : idxs.Perm (List.range N)) :
    ((List.range N).map (fun j => List.indexOf j idxs)).Perm (List.range N) := by
  have hmem : ∀ x, x ∈ idxs ↔ x < N := fun x => by
    rw [hperm.mem_iff, List.mem_range]
  have hlen : idxs.length = N := by
    rw [hperm.length_eq, List.length_range]
  have hnd : ((List.range N).map (fun j => List.indexOf j idxs)).Nodup := by
    apply List.Nodup.map_on _ (List.nodup_range _)
    intro x hx y hy hxy
    rw [List.mem_range] at hx hy
    exact (List.indexOf_inj ((hmem x).mpr hx) ((hmem y).mpr hy)).mp hxy
  have hsub : ((List.range N).map (fun j => List.indexOf j idxs)) ⊆ List.range N := by
    intro v hv
    obtain ⟨j, hj, hjv⟩ := List.mem_map.mp hv
    rw [List.mem_range] at hj
    rw [List.mem_range, ← hjv, ← hlen]
    exact List.indexOf_lt_length.mpr ((hmem j).mpr hj)
  apply List.Subperm.perm_of_length_le (List.subperm_of_subset hnd hsub)
  simp

/-- Counts of the three labels over an in-order position range. -/
theorem count_splitLabel_range (nT nV N : Nat) :
    (((List.range N).map (splitLabel nT nV)).count "train" = min nT N)
    ∧ (((List.range N).map (splitLabel nT nV)).count "val"
        = min (nT + nV) N - min nT N)
    ∧ (((List.range N).map (splitLabel nT nV)).count "test"
        = N - min (nT + nV) N) := by
  induction N with
  | zero => simp
  | succ n ih =>
      obtain ⟨iht, ihv, ihs⟩ := ih
      rw [List.range_succ]
      simp only [List.map_append, List.count_append, List.map_cons, List.map_nil]
      rw [iht, ihv, ihs]
      by_cases h1 : n < nT
      · simp only [splitLabel, if_pos h1]
        refine ⟨?_, ?_, ?_⟩ <;> simp <;> omega
      · by_cases h2 : n < nT + nV
        · simp only [splitLabel, if_neg h1, if_pos h2]
          refine ⟨?_, ?_, ?_⟩ <;> simp <;> omega
        · simp only [splitLabel, if_neg h1, if_neg h2]
          refine ⟨?_, ?_, ?_⟩ <;> simp <;> omega

/-- C2: for every `N ≥ 0`, seed (modelled by an arbitrary seeded permutation
of the index range, which `random.shuffle` always produces) and nonnegative
ratios with `train + val + test ≤ 1`, `assign_splits` returns a list of
exactly `N` labels in which every index of `[0,N)` carries exactly one of
`train`/`val`/`test`, with exactly `⌊N·train_ratio⌋` indices labelled
`train`, exactly `⌊N·val_ratio⌋` labelled `val`, all remaining indices
labelled `test`, and the three counts summing to `N`. -/
theorem assign_splits_partition
    (shuffle : Nat → List Nat → List Nat) (N : Nat) (tr vr ter : ℚ) (seed : Nat)
    (hperm : (shuffle seed (List.range N)).Perm (List.range N))
    (htr : 0 ≤ tr) (hvr : 0 ≤ vr) (hter : 0 ≤ ter) (hsum : tr + vr + ter ≤ 1) :
    (assign_splits shuffle N tr vr ter seed).length = N
    ∧ (∀ j, j < N →
        (assign_splits shuffle N tr vr ter seed)[j]? = some "train"
        ∨ (assign_splits shuffle N tr vr ter seed)[j]? = some "val"
        ∨ (assign_splits shuffle N tr vr ter seed)[j]? = some "test")
    ∧ (assign_splits shuffle N tr vr ter seed).count "train" = ⌊(N : ℚ) * tr⌋₊
    ∧ (assign_splits shuffle N tr vr ter seed).count "val" = ⌊(N : ℚ) * vr⌋₊
    ∧ (assign_splits shuffle N tr vr ter seed).count "test"
        = N - ⌊(N : ℚ) * tr⌋₊ - ⌊(N : ℚ) * vr⌋₊
    ∧ (assign_splits shuffle N tr vr ter seed).count "train"
        + (assign_splits shuffle N tr vr ter seed).count "val"
        + (assign_splits shuffle N tr vr ter seed).count "test" = N := by
  have hunfold : assign_splits shuffle N tr vr ter seed
      = writeLabels (⌊(N : ℚ) * tr⌋₊) (⌊(N : ℚ) * vr⌋₊) 0
          (shuffle seed (List.range N)) (List.replicate N "") := by
    simp only [assign_splits, ratFloorToNat]
  have hle : ⌊(N : ℚ) * tr⌋₊ + ⌊(N : ℚ) * vr⌋₊ ≤ N := by
    have h1 : ((⌊(N : ℚ) * tr⌋₊ : Nat) : ℚ) ≤ (N : ℚ) * tr :=
      Nat.floor_le (by positivity)
    have h2 : ((⌊(N : ℚ) * vr⌋₊ : Nat) : ℚ) ≤ (N : ℚ) * vr :=
      Nat.floor_le (by positivity)
    have h3 : (N : ℚ) * tr + (N : ℚ) * vr ≤ (N : ℚ) := by
      have htv : tr + vr ≤ 1 := by linarith
      calc (N : ℚ) * tr + (N : ℚ) * vr = (N : ℚ) * (tr + vr) := by ring
        _ ≤ (N : ℚ) * 1 := by
            apply mul_le_mul_of_nonneg_left htv (by positivity)
        _ = (N : ℚ) := mul_one _
    have h4 : ((⌊(N : ℚ) * tr⌋₊ + ⌊(N : ℚ) * vr⌋₊ : Nat) : ℚ) ≤ (N : ℚ) := by
      push_cast
      linarith
    exact_mod_cast h4
  rw [hunfold, writeLabels_eq_map _ _ N _ hperm]
  have hmapmap : (List.range N).map
        (fun j => splitLabel (⌊(N : ℚ) * tr⌋₊) (⌊(N : ℚ) * vr⌋₊)
          (List.indexOf j (shuffle seed (List.range N))))
      = ((List.range N).map (fun j => List.indexOf j (shuffle seed (List.range N)))).map
          (splitLabel (⌊(N : ℚ) * tr⌋₊) (⌊(N : ℚ) * vr⌋₊)) := by
    rw [List.map_map]
    rfl
  have hpm := (indexOf_map_range_perm N (shuffle seed (List.range N)) hperm).map
    (splitLabel (⌊(N : ℚ) * tr⌋₊) (⌊(N : ℚ) * vr⌋₊))
  obtain ⟨hct, hcv, hcs⟩ :=
    count_splitLabel_range (⌊(N : ℚ) * tr⌋₊) (⌊(N : ℚ) * vr⌋₊) N
  have hmin1 : min (⌊(N : ℚ) * tr⌋₊) N = ⌊(N : ℚ) * tr⌋₊ := by omega
  have hmin2 : min (⌊(N : ℚ) * tr⌋₊ + ⌊(N : ℚ) * vr⌋₊) N
      = ⌊(N : ℚ) * tr⌋₊ + ⌊(N : ℚ) * vr⌋₊ := by omega
  refine ⟨by rw [List.length_map, List.length_range], ?_, ?_, ?_, ?_, ?_⟩
  · intro j hj
    rw [List.getElem?_map, List.getElem?_range hj]
    simp only [Option.map_some']
    unfold splitLabel
    by_cases h1 : List.indexOf j (shuffle seed (List.range N)) < ⌊(N : ℚ) * tr⌋₊
    · exact Or.inl (by simp [h1])
    · by_cases h2 : List.indexOf j (shuffle seed (List.range N))
          < ⌊(N : ℚ) * tr⌋₊ + ⌊(N : ℚ) * vr⌋₊
      · exact Or.inr (Or.inl (by simp [h1, h2]))
      · exact Or.inr (Or.inr (by simp [h1, h2]))
  · rw [hmapmap]
    simp only [hpm.count_eq]
    rw [hct, hmin1]
  · rw [hmapmap]
    simp only [hpm.count_eq]
    rw [hcv, hmin1, hmin2]
    omega
  · rw [hmapmap]
    simp only [hpm.count_eq]
    rw [hcs, hmin2]
    omega
  · rw [hmapmap]
    simp only [hpm.count_eq]
    rw [hct, hcv, hcs, hmin1, hmin2]
    omega

/-- C2 witness: `N = 10`, ratios `0.8/0.1/0.1`, seed `42`, a concrete
permutation: counts are `train = 8`, `val = 1`, `test = 1`. -/
theorem assign_splits_partition_witness :
    (assign_splits (fun _ l => l) 10 (8/10) (1/10) (1/10) 42).count "train" = 8
    ∧ (assign_splits (fun _ l => l) 10 (8/10) (1/10) (1/10) 42).count "val" = 1
    ∧ (assign_splits (fun _ l => l) 10 (8/10) (1/10) (1/10) 42).count "test" = 1 := by
  obtain ⟨-, -, ht, hv, hs, -⟩ := assign_splits_partition (fun _ l => l) 10
    (8/10) (1/10) (1/10) 42 (List.Perm.refl _)
    (by norm_num) (by norm_num) (by norm_num) (by norm_num)
  have e1 : ((10 : Nat) : ℚ) * (8/10) = 8 := by norm_num
  have e2 : ((10 : Nat) : ℚ) * (1/10) = 1 := by norm_num
  rw [e1] at ht hs
  rw [e2] at hv hs
  refine ⟨?_, ?_, ?_⟩
  · rw [ht]; simp
  · rw [hv]; simp
  · rw [hs]; simp

/-! ## Claim C7: track id generation -/

theorem digitChar_toNat_sub (m : Nat) (hm : m < 10) :
    (Nat.digitChar m).toNat - 48 = m := by
  interval_cases m <;> rfl

theorem toDigitsCore_foldl :
    ∀ (fuel n : Nat) (ds : List Char), n < fuel →
      (Nat.toDigitsCore 10 fuel n ds).foldl decodeDigit 0
        = ds.foldl decodeDigit n := by
  intro fuel
  induction fuel with
  | zero => intro n ds h; cases h
  | succ fuel ih =>
      intro n ds h
      rw [Nat.toDigitsCore]
      by_cases h10 : n / 10 = 0
      · have hn10 : n < 10 := (Nat.div_eq_zero_iff (by norm_num)).mp h10
        rw [if_pos h10]
        rw [List.foldl_cons]
        have : decodeDigit 0 (Nat.digitChar (n % 10)) = n := by
          rw [decodeDigit, digitChar_toNat_sub _ (Nat.mod_lt n (by norm_num))]
          rw [Nat.mod_eq_of_lt hn10]
          omega
        rw [this]
      · rw [if_neg h10]
        have hn0 : 0 < n := by
          rcases Nat.eq_zero_or_pos n with h0 | h0
          · subst h0; simp at h10
          · exact h0
        have hlt : n / 10 < fuel := by
          have := Nat.div_lt_self hn0 (by norm_num : (1:Nat) < 10)
          omega
        rw [ih (n / 10) _ hlt, List.foldl_cons]
        have : decodeDigit (n / 10) (Nat.digitChar (n % 10)) = n := by
          rw [decodeDigit, digitChar_toNat_sub _ (Nat.mod_lt n (by norm_num))]
          exact Nat.div_add_mod n 10
        rw [this]

theorem decode_toDigits (n : Nat) :
    (Nat.toDigits 10 n).foldl decodeDigit 0 = n := by
  rw [Nat.toDigits, toDigitsCore_foldl (n + 1) n [] (Nat.lt_succ_self n)]
  rfl

theorem toDigits_inj {m n : Nat} (h : Nat.toDigits 10 m = Nat.toDigits 10 n) :
    m = n := by
  have hm := decode_toDigits m
  rw [h, decode_toDigits n] at hm
  exact hm.symm

theorem toDigitsCore_head_ne_zero :
    ∀ (fuel n : Nat) (ds : List Char), 0 < n → n < fuel →
      ∃ c cs, Nat.toDigitsCore 10 fuel n ds = c :: cs ∧ c ≠ '0' := by
  intro fuel
  induction fuel with
  | zero => intro n ds h hf; cases hf
  | succ fuel ih =>
      intro n ds hn h
      rw [Nat.toDigitsCore]
      by_cases h10 : n / 10 = 0
      · have hn10 : n < 10 := (Nat.div_eq_zero_iff (by norm_num)).mp h10
        rw [if_pos h10]
        refine ⟨Nat.digitChar (n % 10), ds, rfl, ?_⟩
        rw [Nat.mod_eq_of_lt hn10]
        interval_cases n <;> decide
      · rw [if_neg h10]
        exact ih (n / 10) _ (Nat.pos_of_ne_zero h10) (by
          have := Nat.div_lt_self hn (by norm_num : (1:Nat) < 10)
          omega)

theorem dropWhile_zero_replicate_append (k : Nat) (l : List Char) :
    List.dropWhile (fun c => c == '0') (List.replicate k '0' ++ l)
      = List.dropWhile (fun c => c == '0') l := by
  induction k with
  | zero => simp
  | succ k ih => simp [List.replicate_succ, List.dropWhile_cons, ih]

/-- Zero-padding never confuses two distinct positive indices. -/
theorem zfill_toString_inj {i j p : Nat} (hi : 1 ≤ i) (hj : 1 ≤ j)
    (h : zfill (toString i) p = zfill (toString j) p) : i = j := by
  have hdata : (List.replicate (p - (toString i).length) '0' ++ (toString i).data)
      = (List.replicate (p - (toString j).length) '0' ++ (toString j).data) := by
    have := congrArg String.data h
    simpa [zfill] using this
  have hi' : (toString i).data = Nat.toDigits 10 i := rfl
  have hj' : (toString j).data = Nat.toDigits 10 j := rfl
  have hdrop := congrArg (List.dropWhile (fun c => c == '0')) hdata
  rw [dropWhile_zero_replicate_append, dropWhile_zero_replicate_append,
    hi', hj'] at hdrop
  obtain ⟨ci, csi, hci, hci0⟩ :=
    toDigitsCore_head_ne_zero (i + 1) i [] hi (Nat.lt_succ_self i)
  obtain ⟨cj, csj, hcj, hcj0⟩ :=
    toDigitsCore_head_ne_zero (j + 1) j [] hj (Nat.lt_succ_self j)
  have hdi : Nat.toDigits 10 i = ci :: csi := hci
  have hdj : Nat.toDigits 10 j = cj :: csj := hcj
  rw [hdi, hdj] at hdrop
  rw [List.dropWhile_cons_of_neg (by simpa using hci0),
    List.dropWhile_cons_of_neg (by simpa using hcj0)] at hdrop
  apply toDigits_inj
  rw [hdi, hdj, hdrop]

/-- Distinct positive indices always get distinct track ids. -/
theorem generate_track_id_inj (p : Nat) (pre : String) {i j : Nat}
    (hi : 1 ≤ i) (hj : 1 ≤ j) (hne : i ≠ j) :
    generate_track_id i p pre ≠ generate_track_id j p pre := by
  intro h
  apply hne
  apply zfill_toString_inj hi hj
  have hdata := congrArg String.data h
  simp only [generate_track_id, String.data_append] at hdata
  have h3 : (pre.data ++ "_".data) ++ (zfill (toString i) p).data
      = (pre.data ++ "_".data) ++ (zfill (toString j) p).data := by
    simpa [List.append_assoc] using hdata
  have h2 := List.append_cancel_left h3
  exact congrArg String.mk h2

/-- C7: track planning is a pure, order-dependent function of the input
list: position `i` (1-based) gets track id
`prefix ++ "_" ++ zero_padded(i, padding)` and filename
`track_id ++ "." ++ target_extension`; distinct positions always get
distinct ids; and planning the same list twice yields identical ids and
filenames (planning is deterministic). -/
theorem plan_tracks_track_ids (cfg : DatasetConfig) (files : List FileEnv) :
    (∀ i, ∀ h : i < (plan_tracks cfg files).length,
        ((plan_tracks cfg files)[i]).new_track_id
          = generate_track_id (i + 1) cfg.naming.id_padding cfg.naming.prefixStr
        ∧ ((plan_tracks cfg files)[i]).new_filename
          = generate_track_id (i + 1) cfg.naming.id_padding cfg.naming.prefixStr
            ++ ("." ++ cfg.audio.format.value))
    ∧ (∀ i j, ∀ hi : i < (plan_tracks cfg files).length,
        ∀ hj : j < (plan_tracks cfg files).length, i ≠ j →
        ((plan_tracks cfg files)[i]).new_track_id
          ≠ ((plan_tracks cfg files)[j]).new_track_id)
    ∧ plan_tracks cfg files = plan_tracks cfg files := by
  have hlen : (plan_tracks cfg files).length = files.length := by
    simp [plan_tracks]
  have hget : ∀ i, ∀ h : i < (plan_tracks cfg files).length,
      (plan_tracks cfg files)[i]
        = plan_track cfg i (GetElem.getElem files i (hlen ▸ h)) := by
    intro i h
    simp [plan_tracks, List.enum]
  refine ⟨?_, ?_, rfl⟩
  · intro i h
    rw [hget i h]
    exact ⟨rfl, rfl⟩
  · intro i j hi hj hne
    rw [hget i hi, hget j hj]
    have e1 : (plan_track cfg i (GetElem.getElem files i (hlen ▸ hi))).new_track_id
        = generate_track_id (i + 1) cfg.naming.id_padding cfg.naming.prefixStr := rfl
    have e2 : (plan_track cfg j (GetElem.getElem files j (hlen ▸ hj))).new_track_id
        = generate_track_id (j + 1) cfg.naming.id_padding cfg.naming.prefixStr := rfl
    rw [e1, e2]
    exact generate_track_id_inj cfg.naming.id_padding cfg.naming.prefixStr
      (by omega) (by omega) (by omega)

/-- C7 witness: two concrete planned tracks receive the distinct ids
`track_00001` and `track_00002`. -/
theorem plan_tracks_track_ids_witness :
    ((plan_tracks DEFAULT_CONFIG
      [{ path := "r/x.wav",
         info := { filepath := "r/x.wav", duration_sec := 5, sample_rate := 44100,
                   channels := 2, bit_depth := some 16, format := "wav", codec := "c",
                   file_size_bytes := 1, is_valid := true } },
       { path := "r/y.wav",
         info := { filepath := "r/y.wav", duration_sec := 5, sample_rate := 44100,
                   channels := 2, bit_depth := some 16, format := "wav", codec := "c",
                   file_size_bytes := 1, is_valid := true } }]).get
      ⟨0, by decide⟩).new_track_id
    ≠ ((plan_tracks DEFAULT_CONFIG
      [{ path := "r/x.wav",
         info := { filepath := "r/x.wav", duration_sec := 5, sample_rate := 44100,
                   channels := 2, bit_depth := some 16, format := "wav", codec := "c",
                   file_size_bytes := 1, is_valid := true } },
       { path := "r/y.wav",
         info := { filepath := "r/y.wav", duration_sec := 5, sample_rate := 44100,
                   channels := 2, bit_depth := some 16, format := "wav", codec := "c",
                   file_size_bytes := 1, is_valid := true } }]).get
      ⟨1, by decide⟩).new_track_id := by
  exact (plan_tracks_track_ids DEFAULT_CONFIG
    [{ path := "r/x.wav",
       info := { filepath := "r/x.wav", duration_sec := 5, sample_rate := 44100,
                 channels := 2, bit_depth := some 16, format := "wav", codec := "c",
                 file_size_bytes := 1, is_valid := true } },
     { path := "r/y.wav",
       info := { filepath := "r/y.wav", duration_sec := 5, sample_rate := 44100,
                 channels := 2, bit_depth := some 16, format := "wav", codec := "c",
                 file_size_bytes := 1, is_valid := true } }]).2.1
    0 1 (by decide) (by decide) (by decide)

/-! ## Claim C8: the needs_conversion predicate -/

/-- C8: for a successfully probed file the planned `needs_conversion` flag is
true iff the (lower-cased) source path does not end in the target extension,
or the probed sample rate differs from the target, or the probed channel
count differs, or the probed bit depth is known and differs from the target
(ffprobe never reports a known bit depth of `0`: `int(...) or None`); a file
whose probe failed is always planned with `needs_conversion = true`. -/
theorem needs_conversion_spec (cfg : DatasetConfig) :
    (∀ info : AudioInfo, info.bit_depth ≠ some 0 →
      (needs_conversion cfg info = true
        ↔ (¬ pyEndsWith (pyLower info.filepath)
              ("." ++ cfg.audio.format.value) = true
            ∨ info.sample_rate ≠ cfg.audio.sample_rate
            ∨ info.channels ≠ cfg.audio.channels
            ∨ ∃ b, info.bit_depth = some b ∧ b ≠ cfg.audio.bit_depth)))
    ∧ (∀ (i : Nat) (f : FileEnv), f.info.is_valid = true →
        (plan_track cfg i f).needs_conversion = needs_conversion cfg f.info)
    ∧ (∀ (i : Nat) (f : FileEnv), f.info.is_valid = false →
        (plan_track cfg i f).needs_conversion = true) := by
  refine ⟨?_, ?_, ?_⟩
  · intro info hbd
    unfold needs_conversion
    by_cases h1 : pyEndsWith (pyLower info.filepath) ("." ++ cfg.audio.format.value)
    · by_cases h2 : info.sample_rate = cfg.audio.sample_rate
      · by_cases h3 : info.channels = cfg.audio.channels
        · cases hb : info.bit_depth with
          | none => simp [h1, h2, h3, hb]
          | some b =>
              have hb0 : ¬(b = 0) := by
                intro h0
                exact hbd (by rw [hb, h0])
              by_cases h4 : b = cfg.audio.bit_depth <;>
                simp [h1, h2, h3, hb, hb0, h4]
        · simp [h1, h2, h3]
      · simp [h1, h2]
    · simp [h1]
  · intro i f hv
    simp [plan_track, hv]
  · intro i f hv
    simp [plan_track, hv]

/-- C8 witness: a 48 kHz wav against the 44.1 kHz default target needs
conversion. -/
theorem needs_conversion_spec_witness :
    needs_conversion DEFAULT_CONFIG
      { filepath := "r/x.wav", duration_sec := 5, sample_rate := 48000,
        channels := 2, bit_depth := some 16, format := "wav", codec := "c",
        file_size_bytes := 1, is_valid := true } = true := by
  apply ((needs_conversion_spec DEFAULT_CONFIG).1
    { filepath := "r/x.wav", duration_sec := 5, sample_rate := 48000,
      channels := 2, bit_depth := some 16, format := "wav", codec := "c",
      file_size_bytes := 1, is_valid := true } (by decide)).mpr
  exact Or.inr (Or.inl (by decide))

/-! ## Claim C1: the missing use_splits_subdirs attribute aborts organization -/

/-- Reading the missing attribute makes `create_directory_structure` raise. -/
theorem create_directory_structure_error (s : StructureObject) (out : String)
    (hattr : s.use_splits_subdirs_attr = none) :
    create_directory_structure s out
      = Except.error
          "AttributeError: DirectoryStructure object has no attribute use_splits_subdirs" := by
  simp [create_directory_structure, readUseSplitsSubdirs, hattr, Bind.bind, Except.bind]

/-- C1: for every configuration whose structure is an instance of config.py's
`DirectoryStructure` (which declares no `use_splits_subdirs` field — this
includes `DEFAULT_CONFIG`), `create_directory_structure` raises
`AttributeError` on reading `structure.use_splits_subdirs`; hence every
`organize_dataset` run that reaches directory creation with at least one
track aborts with that exception and never returns an organization result
(planning, split assignment and execution are never reached). -/
theorem organize_dataset_attribute_error
    (cfg : DatasetConfig) (files : List FileEnv)
    (validate_first skip_invalid create_splits : Bool)
    (shuffle : Nat → List Nat → List Nat) (source output : String)
    (hattr : cfg.dirStructure.use_splits_subdirs_attr = none)
    (hne : organizeAudioFiles cfg files validate_first skip_invalid source ≠ []) :
    (∀ out : String, create_directory_structure cfg.dirStructure out
        = Except.error
            "AttributeError: DirectoryStructure object has no attribute use_splits_subdirs")
    ∧ organize_dataset cfg files validate_first skip_invalid create_splits
        shuffle source output
      = Except.error
          "AttributeError: DirectoryStructure object has no attribute use_splits_subdirs" := by
  constructor
  · intro out
    exact create_directory_structure_error cfg.dirStructure out hattr
  · have hlen : ¬((organizeAudioFiles cfg files validate_first skip_invalid
        source).length = 0) := by
      intro h0
      exact hne (List.length_eq_zero.mp h0)
    simp only [organize_dataset]
    rw [if_neg hlen, create_directory_structure_error cfg.dirStructure output hattr]
    rfl

/-- C1 witness: one readable wav file under `DEFAULT_CONFIG`; organization
aborts with the `AttributeError`. -/
theorem organize_dataset_attribute_error_witness :
    organize_dataset DEFAULT_CONFIG
      [{ path := "s/a.wav",
         info := { filepath := "s/a.wav", duration_sec := 5, sample_rate := 44100,
                   channels := 2, bit_depth := some 16, format := "wav", codec := "c",
                   file_size_bytes := 1, is_valid := true },
         fileHash := "h" }] false false true (fun _ l => l) "s" "o"
      = Except.error
          "AttributeError: DirectoryStructure object has no attribute use_splits_subdirs" := by
  exact (organize_dataset_attribute_error DEFAULT_CONFIG
    [{ path := "s/a.wav",
       info := { filepath := "s/a.wav", duration_sec := 5, sample_rate := 44100,
                 channels := 2, bit_depth := some 16, format := "wav", codec := "c",
                 file_size_bytes := 1, is_valid := true },
       fileHash := "h" }] false false true (fun _ l => l) "s" "o"
    rfl (by decide)).2

/-! ## Claim C9: skipped_invalid counts but does not exclude -/

theorem process_track_original_path (f : FileEnv) (m : TrackMapping)
    (dirs : List (String × String)) (split : Option String) :
    (process_track f m dirs split).original_path = m.original_path := by
  unfold process_track
  by_cases hc : m.needs_conversion <;>
    cases f.convertError <;> cases f.copyError <;> simp [hc]

theorem filter_length_partition {α : Type} (p : α → Bool) (l : List α) :
    (l.filter p).length + (l.filter (fun x => !(p x))).length = l.length := by
  induction l with
  | nil => rfl
  | cons a l ih =>
      by_cases h : p a <;> simp [List.filter_cons, h] <;> omega

theorem plan_tracks_getElem (cfg : DatasetConfig) (afiles : List FileEnv)
    (k : Nat) (hk : k < afiles.length) :
    GetElem.getElem (plan_tracks cfg afiles) k (by simpa [plan_tracks] using hk)
      = plan_track cfg k (afiles[k]) := by
  simp [plan_tracks, List.enum]

/-- Every input file of the execution stage appears among the processed
mappings with its original path (`g` is the per-pair processing step, which
preserves `original_path`). -/
theorem processed_tracks_paths (cfg : DatasetConfig) (afiles : List FileEnv)
    (g : Nat × (FileEnv × TrackMapping) → TrackMapping)
    (hg : ∀ p, (g p).original_path = p.2.2.original_path) :
    ∀ f ∈ afiles,
      ∃ m ∈ ((afiles.zip (plan_tracks cfg afiles)).enum.map g),
        m.original_path = f.path := by
  intro f hf
  obtain ⟨k, hk, hkf⟩ := List.mem_iff_getElem.mp hf
  have hplen : (plan_tracks cfg afiles).length = afiles.length := by
    simp [plan_tracks]
  have hzlen : ((afiles.zip (plan_tracks cfg afiles)).enum).length = afiles.length := by
    simp [List.enum_length, List.length_zip, hplen]
  have hklt : k < ((afiles.zip (plan_tracks cfg afiles)).enum.map g).length := by
    simpa [List.length_map, hzlen] using hk
  refine ⟨_, List.getElem_mem hklt, ?_⟩
  rw [List.getElem_map, hg]
  have hzk : GetElem.getElem ((afiles.zip (plan_tracks cfg afiles)).enum) k
        (by rw [hzlen]; exact hk)
      = (k, (afiles[k],
          GetElem.getElem (plan_tracks cfg afiles) k (by rw [hplen]; exact hk))) := by
    simp [List.enum, List.getElem_enumFrom, List.getElem_zip]
  rw [hzk]
  rw [show (k, (afiles[k],
        GetElem.getElem (plan_tracks cfg afiles) k (by rw [hplen]; exact hk))).2.2
      = GetElem.getElem (plan_tracks cfg afiles) k (by rw [hplen]; exact hk) from rfl]
  rw [plan_tracks_getElem cfg afiles k hk]
  rw [← hkf]
  rfl

/-- C9: whenever `organize_dataset` runs with `validate_first = true` and
returns a result, `skipped_invalid` equals the number of files the
pre-validation marked invalid, even when `skip_invalid = false` — and in
that case those very files are still planned and executed: `total_tracks`
counts all input files, every input file (invalid ones included) appears
among the processed `track_mappings`, and every track is processed
(`successfully_processed + failed = total_tracks`); `skipped_invalid` does
not imply exclusion. -/
theorem organize_dataset_skipped_invalid
    (cfg : DatasetConfig) (files : List FileEnv)
    (skip_invalid create_splits : Bool)
    (shuffle : Nat → List Nat → List Nat) (source output : String)
    (r : OrganizationResult)
    (h : organize_dataset cfg files true skip_invalid create_splits shuffle
        source output = Except.ok r) :
    r.skipped_invalid = (validate_dataset cfg source files true).invalid_audio_files
    ∧ (skip_invalid = false →
        r.total_tracks = files.length
        ∧ (∀ f ∈ files, ∃ m ∈ r.track_mappings, m.original_path = f.path)
        ∧ r.successfully_processed + r.failed = r.total_tracks) := by
  by_cases htot : (organizeAudioFiles cfg files true skip_invalid source).length = 0
  · simp only [organize_dataset] at h
    rw [if_pos htot] at h
    injection h with hr
    rw [← hr]
    refine ⟨rfl, ?_⟩
    intro hskip
    subst hskip
    have hfe : files = [] := by
      simpa [organizeAudioFiles, List.length_eq_zero] using htot
    subst hfe
    refine ⟨?_, by simp, ?_⟩
    · show (organizeAudioFiles cfg [] true false source).length
        = ([] : List FileEnv).length
      rw [htot]
      rfl
    · show (0 : Nat) + 0 = (organizeAudioFiles cfg [] true false source).length
      rw [htot]
  · simp only [organize_dataset] at h
    rw [if_neg htot] at h
    cases hcd : create_directory_structure cfg.dirStructure output with
    | error e =>
        rw [hcd] at h
        exact absurd h (by simp [Bind.bind, Except.bind])
    | ok dirs =>
        rw [hcd] at h
        by_cases hcs : create_splits = true
        · cases hru : readUseSplitsSubdirs cfg.dirStructure with
          | error e =>
              rw [hru] at h
              simp [hcs, Bind.bind, Except.bind] at h
          | ok uss =>
              rw [hru] at h
              simp only [hcs, if_true, eq_self_iff_true, Bind.bind, Except.bind] at h
              injection h with hr
              rw [← hr]
              refine ⟨rfl, ?_⟩
              intro hskip
              subst hskip
              have haf : organizeAudioFiles cfg files true false source = files := by
                simp [organizeAudioFiles]
              refine ⟨by simp [haf], ?_, ?_⟩
              · simp only [haf]
                exact processed_tracks_paths cfg files _
                  (fun p => process_track_original_path _ _ _ _)
              · simp only [haf]
                have hiso : (fun m : TrackMapping => m.error.isNone)
                    = (fun m : TrackMapping => !(m.error.isSome)) :=
                  funext fun m => by cases m.error <;> rfl
                rw [hiso, Nat.add_comm,
                  filter_length_partition (fun m : TrackMapping => m.error.isSome)]
                simp [List.length_map, List.enum_length, List.length_zip, plan_tracks]
        · have hcs' : create_splits = false := by simpa using hcs
          simp only [hcs', Bool.false_eq_true, if_false, Bind.bind, Except.bind] at h
          injection h with hr
          rw [← hr]
          refine ⟨rfl, ?_⟩
          intro hskip
          subst hskip
          have haf : organizeAudioFiles cfg files true false source = files := by
            simp [organizeAudioFiles]
          refine ⟨by simp [haf], ?_, ?_⟩
          · simp only [haf]
            exact processed_tracks_paths cfg files _
              (fun p => process_track_original_path _ _ _ _)
          · simp only [haf]
            have hiso : (fun m : TrackMapping => m.error.isNone)
                = (fun m : TrackMapping => !(m.error.isSome)) :=
              funext fun m => by cases m.error <;> rfl
            rw [hiso, Nat.add_comm,
              filter_length_partition (fun m : TrackMapping => m.error.isSome)]
            simp [List.length_map, List.enum_length, List.length_zip, plan_tracks]

/-- C9 witness: one invalid and one valid file, `skip_invalid = false`:
`skipped_invalid = 1` while both files (the invalid one included) are among
the planned-and-executed mappings and `total_tracks = 2`. -/
theorem organize_dataset_skipped_invalid_witness :
    (organize_dataset cfgWithSplitsAttr [badProbeFile, goodFile] true false false
        (fun _ l => l) "s" "o").map
      (fun r => (r.skipped_invalid, r.total_tracks,
        r.track_mappings.any (fun m => m.original_path == "s/bad.wav")))
    = Except.ok (1, 2, true) := by
  cases horg : organize_dataset cfgWithSplitsAttr [badProbeFile, goodFile] true
      false false (fun _ l => l) "s" "o" with
  | error e =>
      have h2 : (organize_dataset cfgWithSplitsAttr [badProbeFile, goodFile] true
          false false (fun _ l => l) "s" "o").toOption = none := by
        rw [horg]; rfl
      have h3 : (organize_dataset cfgWithSplitsAttr [badProbeFile, goodFile] true
          false false (fun _ l => l) "s" "o").toOption.isSome = true := by decide
      rw [h2] at h3
      simp at h3
  | ok r =>
      obtain ⟨h1, hrest⟩ := organize_dataset_skipped_invalid cfgWithSplitsAttr
        [badProbeFile, goodFile] false false (fun _ l => l) "s" "o" r horg
      obtain ⟨ht, hm, -⟩ := hrest rfl
      obtain ⟨m, hmm, hmp⟩ := hm badProbeFile (by simp)
      have hinv : (validate_dataset cfgWithSplitsAttr "s" [badProbeFile, goodFile]
          true).invalid_audio_files = 1 := by decide
      have hany : (r.track_mappings.any
          (fun m => m.original_path == "s/bad.wav")) = true :=
        List.any_eq_true.mpr ⟨m, hmm, by rw [hmp]; decide⟩
      show Except.ok (r.skipped_invalid, r.total_tracks,
        r.track_mappings.any (fun m => m.original_path == "s/bad.wav"))
        = Except.ok (1, 2, true)
      rw [h1, hinv, ht, hany]
      rfl

/-! ## Claim C4: CLI exit codes (corrected) -/

/-- C4 counterexample: a dataset whose single file fails validation (and is
skipped) makes `cmd_organize` return exit code `0`, although the claim says
organize exits `1` whenever at least one file failed during validation. -/
theorem cmd_organize_exit_counterexample :
    (validate_dataset DEFAULT_CONFIG "src" [badProbeFile] true).invalid_audio_files = 1
    ∧ cmd_organize DEFAULT_CONFIG [badProbeFile] false false false
        (fun _ l => l) "src" "out" = Except.ok 0 := by
  exact ⟨by decide, rfl⟩

/-- C4 (amended): `cmd_validate` returns `1` iff at least one audio file is
invalid (and `0` iff none is); `cmd_organize` and `cmd_full` return, for a
run that completes, `0` when `result.failed = 0` and `1` otherwise — i.e.
exit code `1` iff at least one file failed during organization execution;
files that fail pre-validation and are skipped do not affect the
organize/full exit code. -/
theorem cli_exit_codes (cfg : DatasetConfig) (root source output : String)
    (files : List FileEnv)
    (no_integrity no_validate include_invalid no_splits : Bool)
    (shuffle : Nat → List Nat → List Nat) :
    (cmd_validate cfg root files no_integrity = 1
      ↔ 0 < (validate_dataset cfg root files (!no_integrity)).invalid_audio_files)
    ∧ (cmd_validate cfg root files no_integrity = 0
      ↔ (validate_dataset cfg root files (!no_integrity)).invalid_audio_files = 0)
    ∧ (∀ r, organize_dataset cfg files (!no_validate) (!include_invalid)
          (!no_splits) shuffle source output = Except.ok r →
        cmd_organize cfg files no_validate include_invalid no_splits shuffle
            source output = Except.ok (if r.failed = 0 then 0 else 1))
    ∧ (∀ r, organize_dataset cfg files false (!include_invalid)
          (!no_splits) shuffle source output = Except.ok r →
        cmd_full cfg files include_invalid no_splits shuffle source output
          = Except.ok (if r.failed = 0 then 0 else 1)) := by
  refine ⟨?_, ?_, ?_, ?_⟩
  · unfold cmd_validate
    by_cases h : (validate_dataset cfg root files (!no_integrity)).invalid_audio_files
        = 0
    · simp [h]
    · simp [h]
      omega
  · unfold cmd_validate
    by_cases h : (validate_dataset cfg root files (!no_integrity)).invalid_audio_files
        = 0 <;> simp [h]
  · intro r hr
    unfold cmd_organize
    rw [hr]
    rfl
  · intro r hr
    unfold cmd_full
    rw [hr]
    rfl

/-- C4 witness: `cmd_validate` on a dataset with one unreadable file exits
with code `1`. -/
theorem cli_exit_codes_witness :
    cmd_validate DEFAULT_CONFIG "src" [badProbeFile] false = 1 := by
  exact (cli_exit_codes DEFAULT_CONFIG "src" "s" "o" [badProbeFile]
    false false false false (fun _ l => l)).1.mpr (by decide)
